import Mathlib

/-!
# ecom_v2: the storage layer, embedded

A shallow embedding of the two storage backends of the repository
(`internal/storer/storer_gorm.go`, the declarative-mapping backend, and
`internal/storer_pq/storer_pq.go`, the raw-query backend) over an explicit
relational store.

* The database is a value of type `Store`: one list of rows per table.
* A Go `error` is a value of `GoError`; `fmt.Errorf("...: %w", err)` is
  `GoError.wrap`, `errors.New` is `GoError.new`, `errors.Is` is `errorsIs`.
* A Go result `(*T, error)` is a pair `Option T × Option GoError`, so that
  "a record together with an error" is a shape the type allows.
* Every driver call takes the failure the driver reports for it, if any
  (`Option GoError`): connection loss, cancellation, constraint violations
  that the row model does not decide.
* Columns maintained by the database clock (`created_at`, `updated_at`) and
  the association fields `User`, `Product`, `Order`, which no storage
  method populates, are left out of the row model. Amounts (`float64`
  written to `decimal(10,2)` columns) are carried as integers in hundredths;
  no operation computes with them.
-/

namespace Ecom

/-! ## Errors -/

/-- A Go error value: a leaf made by `errors.New` or reported by a driver,
or a wrapper made by `fmt.Errorf` with `%w`. -/
inductive GoError where
  | new (text : String)
  | wrap (text : String) (cause : GoError)
deriving DecidableEq, Repr

/-- Go's `errors.Is`: the target is the error itself or occurs in its cause
chain. -/
def errorsIs : GoError → GoError → Bool
  | GoError.new t, target => decide (GoError.new t = target)
  | GoError.wrap t c, target => decide (GoError.wrap t c = target) || errorsIs c target

/-- storer_gorm.go:12 -/
def ErrProductNotFound : GoError := GoError.new "product not found"

/-- storer_gorm.go:13 -/
def ErrUserNotFound : GoError := GoError.new "user not found"

/-- storer_gorm.go:14 -/
def ErrOrderNotFound : GoError := GoError.new "order not found"

/-- storer_gorm.go:15 -/
def ErrSessionNotFound : GoError := GoError.new "session not found"

/-- The mapper's `gorm.ErrRecordNotFound`. -/
def ErrRecordNotFound : GoError := GoError.new "record not found"

/-- The driver's `sql.ErrNoRows`. -/
def ErrNoRows : GoError := GoError.new "sql: no rows in result set"

/-- The error the database reports when an insert or update violates a
primary-key or unique index. -/
def ErrDuplicateEntry : GoError := GoError.new "duplicate entry for key"

/-! ## Entities (internal/storer/types.go) -/

/-- An amount stored in a `decimal(10,2)` column, in hundredths. -/
abbrev Money := Int

structure Product where
  ID : Nat
  Name : String
  Image : String
  Category : String
  Description : String
  Rating : Int
  NumReviews : Int
  Price : Money
  CountInStock : Int
deriving DecidableEq, Repr

structure OrderItem where
  ID : Nat
  Name : String
  Quantity : Int
  Image : String
  Price : Money
  ProductID : Nat
  OrderID : Nat
deriving DecidableEq, Repr

/-- An order. A stored row has no `Items`; the field is the association,
filled when an order is loaded. -/
structure Order where
  ID : Nat
  PaymentMethod : String
  TaxPrice : Money
  ShippingPrice : Money
  TotalPrice : Money
  UserID : Nat
  Items : List OrderItem
deriving DecidableEq, Repr

structure User where
  ID : Nat
  Name : String
  Email : String
  Password : String
  IsAdmin : Bool
deriving DecidableEq, Repr

structure Session where
  ID : String
  UserEmail : String
  RefreshToken : String
  IsRevoked : Bool
  ExpiresAt : Nat
deriving DecidableEq, Repr

/-! ## The store -/

/-- The committed contents of the database, one list of rows per table, in
the order in which a query returns them. -/
structure Store where
  products : List Product
  users : List User
  orders : List Order
  items : List OrderItem
  sessions : List Session
deriving DecidableEq, Repr

/-- The empty database. -/
def Store.empty : Store := ⟨[], [], [], [], []⟩

/-- The key the database generates for a new row of a table whose keys are
`ids`: one more than the largest key in use. -/
def nextID (ids : List Nat) : Nat := ids.foldl max 0 + 1

/-- The key under which the mapper inserts a record: a zero key asks the
database for a generated one, a non-zero key is written as supplied. -/
def gormKey (supplied : Nat) (ids : List Nat) : Nat :=
  if supplied = 0 then nextID ids else supplied

/-! ## Transactions -/

/-- What the driver reports for the three statements of a transaction
scope. -/
structure TxFaults where
  beginErr : Option GoError
  rollbackErr : Option GoError
  commitErr : Option GoError

/-- No failure in the transaction statements. -/
def TxFaults.ok : TxFaults := ⟨none, none, none⟩

/-- storer_pq.go:90 `execTx`. The body `fn` runs on a working copy of the
store and on the Go values it captures (`α`); the working copy becomes the
committed store only when `Commit` succeeds. -/
def execTx {α : Type} (f : TxFaults) (fn : Store → α → Option GoError × Store × α)
    (s : Store) (a : α) : Option GoError × Store × α :=
  match f.beginErr with
  | some err => (some (GoError.wrap "error starting transaction: " err), s, a)
  | none =>
    match fn s a with
    | (some err, _, a1) =>
      match f.rollbackErr with
      | some _ => (some (GoError.wrap "error rolling back transaction: " err), s, a1)
      | none => (some (GoError.wrap "error in transaction: " err), s, a1)
    | (none, tx, a1) =>
      match f.commitErr with
      | some err => (some (GoError.wrap "error committing transaction: " err), s, a1)
      | none => (none, tx, a1)

/-- The mapper's `(*gorm.DB).Transaction`: begin, run the body, roll back
when it fails (the rollback's own result is dropped), commit otherwise;
errors are returned as they are. -/
def gormTransaction {α : Type} (f : TxFaults) (fn : Store → α → Option GoError × Store × α)
    (s : Store) (a : α) : Option GoError × Store × α :=
  match f.beginErr with
  | some err => (some err, s, a)
  | none =>
    match fn s a with
    | (some err, _, a1) => (some err, s, a1)
    | (none, tx, a1) =>
      match f.commitErr with
      | some err => (some err, s, a1)
      | none => (none, tx, a1)

/-! ## Order creation, raw-query backend -/

/-- What the driver reports for the statements of the raw-query
`CreateOrder`: the transaction statements, preparing and running the header
insert, and the insert of the item at each index. -/
structure PqOrderFaults where
  tx : TxFaults
  prepareErr : Option GoError
  headerErr : Option GoError
  itemErr : Nat → Option GoError

/-- No failure anywhere. -/
def PqOrderFaults.ok : PqOrderFaults := ⟨TxFaults.ok, none, none, fun _ => none⟩

/-- storer_pq.go:110 `createOrder`: `INSERT INTO orders (payment_method,
tax_price, shipping_price, total_price, user_id) ... RETURNING id`, the
returned key scanned into `o.ID`. Returns the result, the transaction's
working copy and the caller's order value `o`. -/
def createOrder (prepareErr headerErr : Option GoError) (tx : Store) (o : Order) :
    Except GoError Order × Store × Order :=
  match prepareErr with
  | some err =>
    (Except.error (GoError.wrap "error preparing named statement for order: " err), tx, o)
  | none =>
    match headerErr with
    | some err =>
      (Except.error (GoError.wrap "error inserting order and getting ID: " err), tx, o)
    | none =>
      let id := nextID (tx.orders.map Order.ID)
      let row : Order :=
        { ID := id, PaymentMethod := o.PaymentMethod, TaxPrice := o.TaxPrice,
          ShippingPrice := o.ShippingPrice, TotalPrice := o.TotalPrice, UserID := o.UserID,
          Items := [] }
      let o1 : Order := { o with ID := id }
      (Except.ok o1, { tx with orders := tx.orders ++ [row] }, o1)

/-- storer_pq.go:130 `createOrderItem`: `INSERT INTO order_items (name,
quantity, image, price, product_id, order_id)`; the key is generated. -/
def createOrderItem (itemErr : Option GoError) (tx : Store) (oi : OrderItem) :
    Option GoError × Store :=
  match itemErr with
  | some err => (some (GoError.wrap "error inserting order item: " err), tx)
  | none =>
    let row : OrderItem :=
      { ID := nextID (tx.items.map OrderItem.ID), Name := oi.Name, Quantity := oi.Quantity,
        Image := oi.Image, Price := oi.Price, ProductID := oi.ProductID, OrderID := oi.OrderID }
    (none, { tx with items := tx.items ++ [row] })

/-- storer_pq.go:145-151, the loop `for _, oi := range o.Items`: `oi` is a
copy of the element, stamped and inserted; the elements of `o.Items` are
not written. `i` is the index of the head of the remaining items. -/
def createOrderItems (itemErr : Nat → Option GoError) (orderID : Nat) :
    Nat → List OrderItem → Store → Option GoError × Store
  | _, [], tx => (none, tx)
  | i, oi :: rest, tx =>
    let oi1 : OrderItem := { oi with OrderID := orderID }
    match createOrderItem (itemErr i) tx oi1 with
    | (some err, tx1) => (some (GoError.wrap "error creating order item: " err), tx1)
    | (none, tx1) => createOrderItems itemErr orderID (i + 1) rest tx1

/-- The function literal passed to `execTx` at storer_pq.go:139. -/
def createOrderTx (f : PqOrderFaults) (tx : Store) (o : Order) : Option GoError × Store × Order :=
  match createOrder f.prepareErr f.headerErr tx o with
  | (Except.error err, tx1, o1) => (some (GoError.wrap "error creating order: " err), tx1, o1)
  | (Except.ok order, tx1, o1) =>
    match createOrderItems f.itemErr order.ID 0 o1.Items tx1 with
    | (some err, tx2) => (some err, tx2, o1)
    | (none, tx2) => (none, tx2, o1)

/-- storer_pq.go:138 `PostgresStorage.CreateOrder`. -/
def PostgresStorage.CreateOrder (f : PqOrderFaults) (s : Store) (o : Order) :
    (Option Order × Option GoError) × Store :=
  match execTx f.tx (createOrderTx f) s o with
  | (some err, s1, _) => ((none, some (GoError.wrap "error creating order: " err)), s1)
  | (none, s1, o1) => ((some o1, none), s1)

/-! ## Order creation, declarative-mapping backend -/

/-- What the driver reports for the statements of the mapper's
`CreateOrder`: the transaction statements, the create of the order and the
batched item insert. -/
structure GormOrderFaults where
  tx : TxFaults
  headerErr : Option GoError
  itemsErr : Option GoError

/-- No failure anywhere. -/
def GormOrderFaults.ok : GormOrderFaults := ⟨TxFaults.ok, none, none⟩

/-- The mapper saving the has-many `Items` of an order it creates
(`Items []OrderItem` with `foreignKey:OrderID`, types.go:31): every item is
inserted under its key, generated when the key is zero, and an item whose
non-zero key is already stored has the `order_id` of that row updated
instead. `rows` is the table so far; the result is the table afterwards and
the items with their keys written back. -/
def gormSaveItems : List OrderItem → List OrderItem → List OrderItem × List OrderItem
  | [], rows => (rows, [])
  | oi :: rest, rows =>
    let id := gormKey oi.ID (rows.map OrderItem.ID)
    let oi1 : OrderItem := { oi with ID := id }
    let rows1 : List OrderItem :=
      if id ∈ rows.map OrderItem.ID then
        rows.map (fun r => if r.ID == id then { r with OrderID := oi1.OrderID } else r)
      else rows ++ [oi1]
    let r := gormSaveItems rest rows1
    (r.1, oi1 :: r.2)

/-- The mapper's `tx.Create(o)` for an order (storer_gorm.go:100), on a
handle opened with the default configuration (db/database.go:22): it writes
the header row, the key generated when `o.ID` is zero and written back into
`o.ID`, and then saves the items of `o.Items` with `order_id` set to that
key, their keys written back into the slice. `headerErr` is what the driver
reports for the call. -/
def gormCreateOrder (headerErr : Option GoError) (tx : Store) (o : Order) :
    Option GoError × Store × Order :=
  match headerErr with
  | some err => (some err, tx, o)
  | none =>
    let id := gormKey o.ID (tx.orders.map Order.ID)
    if id ∈ tx.orders.map Order.ID then (some ErrDuplicateEntry, tx, o)
    else
      let o1 : Order := { o with ID := id }
      let tx1 : Store := { tx with orders := tx.orders ++ [{ o1 with Items := [] }] }
      let saved := gormSaveItems (o1.Items.map (fun it => { it with OrderID := id })) tx1.items
      (none, { tx1 with items := saved.1 }, { o1 with Items := saved.2 })

/-- The rows one batched insert adds to `order_items`, with keys assigned in
order, or nothing when a supplied key is already in use. `rows` is the
table so far. -/
def gormBatchItems : List OrderItem → List OrderItem → Option (List OrderItem)
  | [], _ => some []
  | oi :: rest, rows =>
    let id := gormKey oi.ID (rows.map OrderItem.ID)
    if id ∈ rows.map OrderItem.ID then none
    else
      let oi1 : OrderItem := { oi with ID := id }
      match gormBatchItems rest (rows ++ [oi1]) with
      | none => none
      | some done => some (oi1 :: done)

/-- The mapper's `tx.Create(&o.Items)`: one batched insert of all items; the
keys are written back into the slice. -/
def gormCreateItems (itemsErr : Option GoError) (tx : Store) (ois : List OrderItem) :
    Option GoError × Store × List OrderItem :=
  match itemsErr with
  | some err => (some err, tx, ois)
  | none =>
    match gormBatchItems ois tx.items with
    | none => (some ErrDuplicateEntry, tx, ois)
    | some rows => (none, { tx with items := tx.items ++ rows }, rows)

/-- The function literal passed to `Transaction` at storer_gorm.go:99. -/
def gormCreateOrderTx (f : GormOrderFaults) (tx : Store) (o : Order) :
    Option GoError × Store × Order :=
  match gormCreateOrder f.headerErr tx o with
  | (some err, tx1, o1) => (some (GoError.wrap "error creating order: " err), tx1, o1)
  | (none, tx1, o1) =>
    if o1.Items.length > 0 then
      let o2 : Order :=
        { o1 with Items := o1.Items.map (fun it => { it with OrderID := o1.ID }) }
      match gormCreateItems f.itemsErr tx1 o2.Items with
      | (some err, tx2, its) =>
        (some (GoError.wrap "error creating order items: " err), tx2, { o2 with Items := its })
      | (none, tx2, its) => (none, tx2, { o2 with Items := its })
    else (none, tx1, o1)

/-- storer_gorm.go:98 `GORMStorage.CreateOrder`. -/
def GORMStorage.CreateOrder (f : GormOrderFaults) (s : Store) (o : Order) :
    (Option Order × Option GoError) × Store :=
  match gormTransaction f.tx (gormCreateOrderTx f) s o with
  | (some err, s1, _) => ((none, some (GoError.wrap "error creating order: " err)), s1)
  | (none, s1, o1) => ((some o1, none), s1)

/-- An order with two items, as submitted by a caller. -/
def sampleOrder : Order :=
  { ID := 0, PaymentMethod := "PayPal", TaxPrice := 0, ShippingPrice := 0, TotalPrice := 1998,
    UserID := 1,
    Items := [⟨0, "widget", 2, "w.png", 999, 1, 0⟩, ⟨0, "gadget", 1, "g.png", 500, 2, 0⟩] }

/-! ## Statements of the declarative-mapping backend -/

/-- What the mapper hands back for a statement: `result.Error` and
`result.RowsAffected`. -/
structure GormResult where
  Error : Option GoError
  RowsAffected : Nat
deriving DecidableEq, Repr

/-- The mapper's `First`: the destination (its zero value when nothing was
read) and the error, `gorm.ErrRecordNotFound` when no row matches. -/
def gormFirst {α : Type} (zero : α) (fault : Option GoError) (rows : List α) (p : α → Bool) :
    α × GormResult :=
  match fault with
  | some err => (zero, ⟨some err, 0⟩)
  | none =>
    match rows.find? p with
    | some r => (r, ⟨none, 1⟩)
    | none => (zero, ⟨some ErrRecordNotFound, 0⟩)

/-- The mapper's `Find` without conditions: every row of the table. -/
def gormFind {α : Type} (fault : Option GoError) (rows : List α) : List α × GormResult :=
  match fault with
  | some err => ([], ⟨some err, 0⟩)
  | none => (rows, ⟨none, rows.length⟩)

/-- The mapper's `Delete` under a condition: the table afterwards and the
number of rows deleted. -/
def gormDelete {α : Type} (fault : Option GoError) (rows : List α) (p : α → Bool) :
    List α × GormResult :=
  match fault with
  | some err => (rows, ⟨some err, 0⟩)
  | none => (rows.filter (fun r => !p r), ⟨none, (rows.filter p).length⟩)

/-- The zero value of `Product`. -/
def Product.zero : Product := ⟨0, "", "", "", "", 0, 0, 0, 0⟩

/-- The zero value of `Order`. -/
def Order.zero : Order := ⟨0, "", 0, 0, 0, 0, []⟩

/-- The zero value of `User`. -/
def User.zero : User := ⟨0, "", "", "", false⟩

/-- The zero value of `Session`. -/
def Session.zero : Session := ⟨"", "", "", false, 0⟩

/-! ### Products -/

/-- storer_gorm.go:28 `GORMStorage.CreateProduct`. -/
def GORMStorage.CreateProduct (fault : Option GoError) (s : Store) (p : Product) :
    (Option Product × Option GoError) × Store :=
  match fault with
  | some err => ((none, some (GoError.wrap "error inserting product: " err)), s)
  | none =>
    let id := gormKey p.ID (s.products.map Product.ID)
    if id ∈ s.products.map Product.ID then
      ((none, some (GoError.wrap "error inserting product: " ErrDuplicateEntry)), s)
    else
      let p1 : Product := { p with ID := id }
      ((some p1, none), { s with products := s.products ++ [p1] })

/-- storer_gorm.go:36 `GORMStorage.GetProduct`. -/
def GORMStorage.GetProduct (fault : Option GoError) (s : Store) (id : Nat) :
    Option Product × Option GoError :=
  let r := gormFirst Product.zero fault s.products (fun p => p.ID == id)
  match r.2.Error with
  | some err =>
    if errorsIs err ErrRecordNotFound then (none, some ErrProductNotFound)
    else (none, some (GoError.wrap "error getting product: " err))
  | none => (some r.1, none)

/-- storer_gorm.go:48 `GORMStorage.ListProducts`. -/
def GORMStorage.ListProducts (fault : Option GoError) (s : Store) :
    Option (List Product) × Option GoError :=
  let r := gormFind fault s.products
  match r.2.Error with
  | some err => (none, some (GoError.wrap "error listing products: " err))
  | none => (some r.1, none)

/-- The mapper's `Save` on a table keyed by `key`: a record with a zero key
is inserted under a generated key; otherwise the rows with its key are
replaced, and when there is none the record is inserted under its key. -/
def gormSave {α : Type} (key : α → Nat) (setKey : α → Nat → α) (rows : List α) (x : α) :
    α × List α :=
  if key x = 0 then
    let x1 := setKey x (nextID (rows.map key))
    (x1, rows ++ [x1])
  else if rows.any (fun r => key r == key x) then
    (x, rows.map (fun r => if key r == key x then x else r))
  else (x, rows ++ [x])

/-- storer_gorm.go:57 `GORMStorage.UpdateProduct`. -/
def GORMStorage.UpdateProduct (fault : Option GoError) (s : Store) (p : Product) :
    (Option Product × Option GoError) × Store :=
  match fault with
  | some err => ((none, some (GoError.wrap "error updating product: " err)), s)
  | none =>
    let r := gormSave Product.ID (fun x k => { x with ID := k }) s.products p
    ((some r.1, none), { s with products := r.2 })

/-- storer_gorm.go:65 `GORMStorage.DeleteProduct`. -/
def GORMStorage.DeleteProduct (fault : Option GoError) (s : Store) (id : Nat) :
    Option GoError × Store :=
  let r := gormDelete fault s.products (fun p => p.ID == id)
  match r.2.Error with
  | some err => (some (GoError.wrap "error deleting product: " err), s)
  | none =>
    if r.2.RowsAffected = 0 then (some ErrProductNotFound, { s with products := r.1 })
    else (none, { s with products := r.1 })

/-! ### Orders -/

/-- The mapper's `Preload("Items")`: the items of an order, by `order_id`. -/
def preloadItems (s : Store) (o : Order) : Order :=
  { o with Items := s.items.filter (fun it => it.OrderID == o.ID) }

/-- storer_gorm.go:119 `GORMStorage.GetOrder`: the first order of the user
`userID`, with its items. -/
def GORMStorage.GetOrder (fault : Option GoError) (s : Store) (userID : Nat) :
    Option Order × Option GoError :=
  let r := gormFirst Order.zero fault s.orders (fun o => o.UserID == userID)
  match r.2.Error with
  | some err =>
    if errorsIs err ErrRecordNotFound then (none, some ErrOrderNotFound)
    else (none, some (GoError.wrap "error getting order: " err))
  | none => (some (preloadItems s r.1), none)

/-- storer_gorm.go:131 `GORMStorage.ListOrders`. -/
def GORMStorage.ListOrders (fault : Option GoError) (s : Store) :
    Option (List Order) × Option GoError :=
  let r := gormFind fault (s.orders.map (preloadItems s))
  match r.2.Error with
  | some err => (none, some (GoError.wrap "error listing orders: " err))
  | none => (some r.1, none)

/-- What the driver reports for the statements of `DeleteOrder`, in either
backend: the transaction statements and the two deletes. -/
structure DeleteOrderFaults where
  tx : TxFaults
  itemsErr : Option GoError
  orderErr : Option GoError

/-- No failure anywhere. -/
def DeleteOrderFaults.ok : DeleteOrderFaults := ⟨TxFaults.ok, none, none⟩

/-- The function literal passed to `Transaction` at storer_gorm.go:141. -/
def gormDeleteOrderTx (f : DeleteOrderFaults) (id : Nat) (tx : Store) (_u : Unit) :
    Option GoError × Store × Unit :=
  let r1 := gormDelete f.itemsErr tx.items (fun it => it.OrderID == id)
  match r1.2.Error with
  | some err => (some (GoError.wrap "error deleting order items: " err), tx, ())
  | none =>
    let tx1 : Store := { tx with items := r1.1 }
    let r2 := gormDelete f.orderErr tx1.orders (fun o => o.ID == id)
    match r2.2.Error with
    | some err => (some (GoError.wrap "error deleting order: " err), tx1, ())
    | none => (none, { tx1 with orders := r2.1 }, ())

/-- storer_gorm.go:140 `GORMStorage.DeleteOrder`. -/
def GORMStorage.DeleteOrder (f : DeleteOrderFaults) (s : Store) (id : Nat) :
    Option GoError × Store :=
  match gormTransaction f.tx (gormDeleteOrderTx f id) s () with
  | (some err, s1, _) => (some (GoError.wrap "error deleting order: " err), s1)
  | (none, s1, _) => (none, s1)

/-! ### Users -/

/-- storer_gorm.go:156 `GORMStorage.CreateUser`. The `users` table has a
unique index on `email` (types.go:53). -/
def GORMStorage.CreateUser (fault : Option GoError) (s : Store) (u : User) :
    (Option User × Option GoError) × Store :=
  match fault with
  | some err => ((none, some (GoError.wrap "error inserting user: " err)), s)
  | none =>
    let id := gormKey u.ID (s.users.map User.ID)
    if id ∈ s.users.map User.ID ∨ u.Email ∈ s.users.map User.Email then
      ((none, some (GoError.wrap "error inserting user: " ErrDuplicateEntry)), s)
    else
      let u1 : User := { u with ID := id }
      ((some u1, none), { s with users := s.users ++ [u1] })

/-- storer_gorm.go:164 `GORMStorage.GetUser`. -/
def GORMStorage.GetUser (fault : Option GoError) (s : Store) (email : String) :
    Option User × Option GoError :=
  let r := gormFirst User.zero fault s.users (fun u => u.Email == email)
  match r.2.Error with
  | some err =>
    if errorsIs err ErrRecordNotFound then (none, some ErrUserNotFound)
    else (none, some (GoError.wrap "error getting user: " err))
  | none => (some r.1, none)

/-- storer_gorm.go:176 `GORMStorage.ListUsers`. -/
def GORMStorage.ListUsers (fault : Option GoError) (s : Store) :
    Option (List User) × Option GoError :=
  let r := gormFind fault s.users
  match r.2.Error with
  | some err => (none, some (GoError.wrap "error listing users: " err))
  | none => (some r.1, none)

/-- storer_gorm.go:185 `GORMStorage.UpdateUser`. Writing an email that
another user holds violates the unique index. -/
def GORMStorage.UpdateUser (fault : Option GoError) (s : Store) (u : User) :
    (Option User × Option GoError) × Store :=
  match fault with
  | some err => ((none, some (GoError.wrap "error updating user: " err)), s)
  | none =>
    if s.users.any (fun r => r.Email == u.Email && (u.ID == 0 || r.ID != u.ID)) then
      ((none, some (GoError.wrap "error updating user: " ErrDuplicateEntry)), s)
    else
      let r := gormSave User.ID (fun x k => { x with ID := k }) s.users u
      ((some r.1, none), { s with users := r.2 })

/-- storer_gorm.go:193 `GORMStorage.DeleteUser`. -/
def GORMStorage.DeleteUser (fault : Option GoError) (s : Store) (id : Nat) :
    Option GoError × Store :=
  let r := gormDelete fault s.users (fun u => u.ID == id)
  match r.2.Error with
  | some err => (some (GoError.wrap "error deleting user: " err), s)
  | none =>
    if r.2.RowsAffected = 0 then (some ErrUserNotFound, { s with users := r.1 })
    else (none, { s with users := r.1 })

/-! ### Sessions -/

/-- storer_gorm.go:204 `GORMStorage.CreateSession`. `id` is the primary key
of `sessions` (types.go:59), supplied by the caller. -/
def GORMStorage.CreateSession (fault : Option GoError) (s : Store) (x : Session) :
    (Option Session × Option GoError) × Store :=
  match fault with
  | some err => ((none, some (GoError.wrap "error inserting session: " err)), s)
  | none =>
    if x.ID ∈ s.sessions.map Session.ID then
      ((none, some (GoError.wrap "error inserting session: " ErrDuplicateEntry)), s)
    else ((some x, none), { s with sessions := s.sessions ++ [x] })

/-- storer_gorm.go:212 `GORMStorage.GetSession`. -/
def GORMStorage.GetSession (fault : Option GoError) (s : Store) (id : String) :
    Option Session × Option GoError :=
  let r := gormFirst Session.zero fault s.sessions (fun x => x.ID == id)
  match r.2.Error with
  | some err =>
    if errorsIs err ErrRecordNotFound then (none, some ErrSessionNotFound)
    else (none, some (GoError.wrap "error getting session: " err))
  | none => (some r.1, none)

/-- The mapper's `Model(&Session{}).Where("id = ?", id).Update("is_revoked",
true)`: the table afterwards and the rows affected. The database counts the
rows matched when the connection asks for found rows (`foundRows`),
otherwise the rows whose flag changed. -/
def gormRevoke (foundRows : Bool) (fault : Option GoError) (rows : List Session) (id : String) :
    List Session × GormResult :=
  match fault with
  | some err => (rows, ⟨some err, 0⟩)
  | none =>
    (rows.map (fun x => if x.ID == id then { x with IsRevoked := true } else x),
      ⟨none, (rows.filter (fun x => x.ID == id && (foundRows || !x.IsRevoked))).length⟩)

/-- storer_gorm.go:224 `GORMStorage.RevokeSession`. -/
def GORMStorage.RevokeSession (foundRows : Bool) (fault : Option GoError) (s : Store)
    (id : String) : Option GoError × Store :=
  let r := gormRevoke foundRows fault s.sessions id
  match r.2.Error with
  | some err => (some (GoError.wrap "error revoking session: " err), s)
  | none =>
    if r.2.RowsAffected = 0 then (some ErrSessionNotFound, { s with sessions := r.1 })
    else (none, { s with sessions := r.1 })

/-- storer_gorm.go:235 `GORMStorage.DeleteSession`. -/
def GORMStorage.DeleteSession (fault : Option GoError) (s : Store) (id : String) :
    Option GoError × Store :=
  let r := gormDelete fault s.sessions (fun x => x.ID == id)
  match r.2.Error with
  | some err => (some (GoError.wrap "error deleting session: " err), s)
  | none =>
    if r.2.RowsAffected = 0 then (some ErrSessionNotFound, { s with sessions := r.1 })
    else (none, { s with sessions := r.1 })

/-! ## Statements of the raw-query backend

Keys are Go `int` here (`id int`, `userId int`), so they are integers and a
negative key matches no row. -/

/-- The driver's `GetContext`: the destination (its zero value when nothing
was read) and the error, `sql.ErrNoRows` when no row matches. -/
def sqlGet {α : Type} (zero : α) (fault : Option GoError) (rows : List α) (p : α → Bool) :
    α × Option GoError :=
  match fault with
  | some err => (zero, some err)
  | none =>
    match rows.find? p with
    | some r => (r, none)
    | none => (zero, some ErrNoRows)

/-- The driver's `SelectContext`: the rows that match. -/
def sqlSelect {α : Type} (fault : Option GoError) (rows : List α) (p : α → Bool) :
    List α × Option GoError :=
  match fault with
  | some err => ([], some err)
  | none => (rows.filter p, none)

/-- The driver's `ExecContext` of a `DELETE ... WHERE`: the table afterwards
and the error. The statement succeeds whatever the number of rows. -/
def sqlDelete {α : Type} (fault : Option GoError) (rows : List α) (p : α → Bool) :
    List α × Option GoError :=
  match fault with
  | some err => (rows, some err)
  | none => (rows.filter (fun r => !p r), none)

/-! ### Products -/

/-- storer_pq.go:36 `PostgresStorage.CreateProduct`: `INSERT ... RETURNING
id`, the key scanned into `p.ID`. -/
def PostgresStorage.CreateProduct (prepareErr execErr : Option GoError) (s : Store)
    (p : Product) : (Option Product × Option GoError) × Store :=
  match prepareErr with
  | some err =>
    ((none, some (GoError.wrap "error preparing named statement for product: " err)), s)
  | none =>
    match execErr with
    | some err => ((none, some (GoError.wrap "error inserting product and getting ID: " err)), s)
    | none =>
      let p1 : Product := { p with ID := nextID (s.products.map Product.ID) }
      ((some p1, none), { s with products := s.products ++ [p1] })

/-- storer_pq.go:56 `PostgresStorage.GetProduct`. -/
def PostgresStorage.GetProduct (fault : Option GoError) (s : Store) (id : Int) :
    Option Product × Option GoError :=
  let r := sqlGet Product.zero fault s.products (fun p => (p.ID : Int) == id)
  match r.2 with
  | some err => (none, some (GoError.wrap "error getting product: " err))
  | none => (some r.1, none)

/-- storer_pq.go:65 `PostgresStorage.ListProducts`. -/
def PostgresStorage.ListProducts (fault : Option GoError) (s : Store) :
    Option (List Product) × Option GoError :=
  let r := sqlSelect fault s.products (fun _ => true)
  match r.2 with
  | some err => (none, some (GoError.wrap "error listing products: " err))
  | none => (some r.1, none)

/-- storer_pq.go:74 `PostgresStorage.UpdateProduct`: `UPDATE products SET
... WHERE id=:id`. -/
def PostgresStorage.UpdateProduct (fault : Option GoError) (s : Store) (p : Product) :
    (Option Product × Option GoError) × Store :=
  match fault with
  | some err => ((none, some (GoError.wrap "error updating product: " err)), s)
  | none =>
    ((some p, none),
      { s with products := s.products.map (fun r => if r.ID == p.ID then p else r) })

/-- storer_pq.go:82 `PostgresStorage.DeleteProduct`. -/
def PostgresStorage.DeleteProduct (fault : Option GoError) (s : Store) (id : Int) :
    Option GoError × Store :=
  let r := sqlDelete fault s.products (fun p => (p.ID : Int) == id)
  match r.2 with
  | some err => (some (GoError.wrap "error deleting product: " err), s)
  | none => (none, { s with products := r.1 })

/-! ### Orders -/

/-- storer_pq.go:160 `PostgresStorage.GetOrder`: the first order of the user
`userId`, then its items by `order_id`. -/
def PostgresStorage.GetOrder (orderErr itemsErr : Option GoError) (s : Store) (userId : Int) :
    Option Order × Option GoError :=
  let r := sqlGet Order.zero orderErr s.orders (fun o => (o.UserID : Int) == userId)
  match r.2 with
  | some err => (none, some (GoError.wrap "error getting order: " err))
  | none =>
    let oi := sqlSelect itemsErr s.items (fun it => it.OrderID == r.1.ID)
    match oi.2 with
    | some err => (none, some (GoError.wrap "error getting order items: " err))
    | none => (some { r.1 with Items := oi.1 }, none)

/-- storer_pq.go:181-188, the loop `for i := range orders`: one item query
per order, the first failure ends the listing. `i` is the index of the head
of the remaining orders. -/
def listOrderItems (itemsErr : Nat → Option GoError) (s : Store) :
    Nat → List Order → Except GoError (List Order)
  | _, [] => Except.ok []
  | i, o :: rest =>
    let items := sqlSelect (itemsErr i) s.items (fun it => it.OrderID == o.ID)
    match items.2 with
    | some err => Except.error (GoError.wrap "error listing order items: " err)
    | none =>
      match listOrderItems itemsErr s (i + 1) rest with
      | Except.error err => Except.error err
      | Except.ok done => Except.ok ({ o with Items := items.1 } :: done)

/-- storer_pq.go:175 `PostgresStorage.ListOrders`. The slice returned with a
nil error is `some`, the empty one (Go's nil slice) included; the nil
returned with an error is `none`. -/
def PostgresStorage.ListOrders (ordersErr : Option GoError) (itemsErr : Nat → Option GoError)
    (s : Store) : Option (List Order) × Option GoError :=
  let r := sqlSelect ordersErr s.orders (fun _ => true)
  match r.2 with
  | some err => (none, some (GoError.wrap "error listing orders: " err))
  | none =>
    match listOrderItems itemsErr s 0 r.1 with
    | Except.error err => (none, some err)
    | Except.ok orders => (some orders, none)

/-- The function literal passed to `execTx` at storer_pq.go:193. -/
def deleteOrderTx (f : DeleteOrderFaults) (id : Int) (tx : Store) (_u : Unit) :
    Option GoError × Store × Unit :=
  let r1 := sqlDelete f.itemsErr tx.items (fun it => (it.OrderID : Int) == id)
  match r1.2 with
  | some err => (some (GoError.wrap "error deleting order items: " err), tx, ())
  | none =>
    let tx1 : Store := { tx with items := r1.1 }
    let r2 := sqlDelete f.orderErr tx1.orders (fun o => (o.ID : Int) == id)
    match r2.2 with
    | some err => (some (GoError.wrap "error deleting order: " err), tx1, ())
    | none => (none, { tx1 with orders := r2.1 }, ())

/-- storer_pq.go:192 `PostgresStorage.DeleteOrder`. -/
def PostgresStorage.DeleteOrder (f : DeleteOrderFaults) (s : Store) (id : Int) :
    Option GoError × Store :=
  match execTx f.tx (deleteOrderTx f id) s () with
  | (some err, s1, _) => (some (GoError.wrap "error deleting order: " err), s1)
  | (none, s1, _) => (none, s1)

/-! ### Users -/

/-- storer_pq.go:211 `PostgresStorage.CreateUser`. The `users` table has a
unique `email`. -/
def PostgresStorage.CreateUser (prepareErr execErr : Option GoError) (s : Store) (u : User) :
    (Option User × Option GoError) × Store :=
  match prepareErr with
  | some err => ((none, some (GoError.wrap "error preparing named statement for user: " err)), s)
  | none =>
    match execErr with
    | some err => ((none, some (GoError.wrap "error inserting user and getting ID: " err)), s)
    | none =>
      if u.Email ∈ s.users.map User.Email then
        ((none, some (GoError.wrap "error inserting user and getting ID: " ErrDuplicateEntry)), s)
      else
        let u1 : User := { u with ID := nextID (s.users.map User.ID) }
        ((some u1, none), { s with users := s.users ++ [u1] })

/-- storer_pq.go:231 `PostgresStorage.GetUser`. -/
def PostgresStorage.GetUser (fault : Option GoError) (s : Store) (email : String) :
    Option User × Option GoError :=
  let r := sqlGet User.zero fault s.users (fun u => u.Email == email)
  match r.2 with
  | some err => (none, some (GoError.wrap "error getting user: " err))
  | none => (some r.1, none)

/-- storer_pq.go:241 `PostgresStorage.ListUsers`. -/
def PostgresStorage.ListUsers (fault : Option GoError) (s : Store) :
    Option (List User) × Option GoError :=
  let r := sqlSelect fault s.users (fun _ => true)
  match r.2 with
  | some err => (none, some (GoError.wrap "error listing users: " err))
  | none => (some r.1, none)

/-- storer_pq.go:251 `PostgresStorage.UpdateUser`: `UPDATE users SET ...
WHERE id=:id`. Writing an email that another user holds violates the unique
index. -/
def PostgresStorage.UpdateUser (fault : Option GoError) (s : Store) (u : User) :
    (Option User × Option GoError) × Store :=
  match fault with
  | some err => ((none, some (GoError.wrap "error updating user: " err)), s)
  | none =>
    if s.users.any (fun r => r.ID == u.ID) &&
        s.users.any (fun r => r.Email == u.Email && r.ID != u.ID) then
      ((none, some (GoError.wrap "error updating user: " ErrDuplicateEntry)), s)
    else ((some u, none), { s with users := s.users.map (fun r => if r.ID == u.ID then u else r) })

/-- storer_pq.go:260 `PostgresStorage.DeleteUser`. -/
def PostgresStorage.DeleteUser (fault : Option GoError) (s : Store) (id : Int) :
    Option GoError × Store :=
  let r := sqlDelete fault s.users (fun u => (u.ID : Int) == id)
  match r.2 with
  | some err => (some (GoError.wrap "error deleting user: " err), s)
  | none => (none, { s with users := r.1 })

/-! ### Sessions -/

/-- storer_pq.go:269 `PostgresStorage.CreateSession`. `id` is the primary
key of `sessions`, supplied by the caller. -/
def PostgresStorage.CreateSession (fault : Option GoError) (s : Store) (x : Session) :
    (Option Session × Option GoError) × Store :=
  match fault with
  | some err => ((none, some (GoError.wrap "error inserting session: " err)), s)
  | none =>
    if x.ID ∈ s.sessions.map Session.ID then
      ((none, some (GoError.wrap "error inserting session: " ErrDuplicateEntry)), s)
    else ((some x, none), { s with sessions := s.sessions ++ [x] })

/-- storer_pq.go:278 `PostgresStorage.GetSession`. -/
def PostgresStorage.GetSession (fault : Option GoError) (s : Store) (id : String) :
    Option Session × Option GoError :=
  let r := sqlGet Session.zero fault s.sessions (fun x => x.ID == id)
  match r.2 with
  | some err => (none, some (GoError.wrap "error getting session: " err))
  | none => (some r.1, none)

/-- storer_pq.go:288 `PostgresStorage.RevokeSession`: `UPDATE sessions SET
is_revoked=1 WHERE id=:id`; the result of the statement is dropped. -/
def PostgresStorage.RevokeSession (fault : Option GoError) (s : Store) (id : String) :
    Option GoError × Store :=
  match fault with
  | some err => (some (GoError.wrap "error revoking session: " err), s)
  | none =>
    (none, { s with sessions :=
      s.sessions.map (fun x => if x.ID == id then { x with IsRevoked := true } else x) })

/-- storer_pq.go:297 `PostgresStorage.DeleteSession`. -/
def PostgresStorage.DeleteSession (fault : Option GoError) (s : Store) (id : String) :
    Option GoError × Store :=
  let r := sqlDelete fault s.sessions (fun x => x.ID == id)
  match r.2 with
  | some err => (some (GoError.wrap "error deleting session: " err), s)
  | none => (none, { s with sessions := r.1 })

/-! ## Sequences of operations -/

/-- A call of the declarative-mapping backend, with what the driver reports
for its statements. -/
inductive GormOp where
  | CreateProduct (fault : Option GoError) (p : Product)
  | GetProduct (fault : Option GoError) (id : Nat)
  | ListProducts (fault : Option GoError)
  | UpdateProduct (fault : Option GoError) (p : Product)
  | DeleteProduct (fault : Option GoError) (id : Nat)
  | CreateOrder (f : GormOrderFaults) (o : Order)
  | GetOrder (fault : Option GoError) (userID : Nat)
  | ListOrders (fault : Option GoError)
  | DeleteOrder (f : DeleteOrderFaults) (id : Nat)
  | CreateUser (fault : Option GoError) (u : User)
  | GetUser (fault : Option GoError) (email : String)
  | ListUsers (fault : Option GoError)
  | UpdateUser (fault : Option GoError) (u : User)
  | DeleteUser (fault : Option GoError) (id : Nat)
  | CreateSession (fault : Option GoError) (x : Session)
  | GetSession (fault : Option GoError) (id : String)
  | RevokeSession (foundRows : Bool) (fault : Option GoError) (id : String)
  | DeleteSession (fault : Option GoError) (id : String)

/-- The committed store after a call of the declarative-mapping backend. The
reads write nothing. -/
def GormOp.apply (s : Store) : GormOp → Store
  | GormOp.CreateProduct fault p => (GORMStorage.CreateProduct fault s p).2
  | GormOp.GetProduct _ _ => s
  | GormOp.ListProducts _ => s
  | GormOp.UpdateProduct fault p => (GORMStorage.UpdateProduct fault s p).2
  | GormOp.DeleteProduct fault id => (GORMStorage.DeleteProduct fault s id).2
  | GormOp.CreateOrder f o => (GORMStorage.CreateOrder f s o).2
  | GormOp.GetOrder _ _ => s
  | GormOp.ListOrders _ => s
  | GormOp.DeleteOrder f id => (GORMStorage.DeleteOrder f s id).2
  | GormOp.CreateUser fault u => (GORMStorage.CreateUser fault s u).2
  | GormOp.GetUser _ _ => s
  | GormOp.ListUsers _ => s
  | GormOp.UpdateUser fault u => (GORMStorage.UpdateUser fault s u).2
  | GormOp.DeleteUser fault id => (GORMStorage.DeleteUser fault s id).2
  | GormOp.CreateSession fault x => (GORMStorage.CreateSession fault s x).2
  | GormOp.GetSession _ _ => s
  | GormOp.RevokeSession foundRows fault id => (GORMStorage.RevokeSession foundRows fault s id).2
  | GormOp.DeleteSession fault id => (GORMStorage.DeleteSession fault s id).2

/-- The call deletes the session `id`. -/
def GormOp.deletesSession (id : String) : GormOp → Bool
  | GormOp.DeleteSession _ id1 => id1 == id
  | _ => false

/-- A call of the raw-query backend, with what the driver reports for its
statements. -/
inductive PqOp where
  | CreateProduct (prepareErr execErr : Option GoError) (p : Product)
  | GetProduct (fault : Option GoError) (id : Int)
  | ListProducts (fault : Option GoError)
  | UpdateProduct (fault : Option GoError) (p : Product)
  | DeleteProduct (fault : Option GoError) (id : Int)
  | CreateOrder (f : PqOrderFaults) (o : Order)
  | GetOrder (orderErr itemsErr : Option GoError) (userId : Int)
  | ListOrders (ordersErr : Option GoError) (itemsErr : Nat → Option GoError)
  | DeleteOrder (f : DeleteOrderFaults) (id : Int)
  | CreateUser (prepareErr execErr : Option GoError) (u : User)
  | GetUser (fault : Option GoError) (email : String)
  | ListUsers (fault : Option GoError)
  | UpdateUser (fault : Option GoError) (u : User)
  | DeleteUser (fault : Option GoError) (id : Int)
  | CreateSession (fault : Option GoError) (x : Session)
  | GetSession (fault : Option GoError) (id : String)
  | RevokeSession (fault : Option GoError) (id : String)
  | DeleteSession (fault : Option GoError) (id : String)

/-- The committed store after a call of the raw-query backend. The reads
write nothing. -/
def PqOp.apply (s : Store) : PqOp → Store
  | PqOp.CreateProduct prepareErr execErr p => (PostgresStorage.CreateProduct prepareErr execErr s p).2
  | PqOp.GetProduct _ _ => s
  | PqOp.ListProducts _ => s
  | PqOp.UpdateProduct fault p => (PostgresStorage.UpdateProduct fault s p).2
  | PqOp.DeleteProduct fault id => (PostgresStorage.DeleteProduct fault s id).2
  | PqOp.CreateOrder f o => (PostgresStorage.CreateOrder f s o).2
  | PqOp.GetOrder _ _ _ => s
  | PqOp.ListOrders _ _ => s
  | PqOp.DeleteOrder f id => (PostgresStorage.DeleteOrder f s id).2
  | PqOp.CreateUser prepareErr execErr u => (PostgresStorage.CreateUser prepareErr execErr s u).2
  | PqOp.GetUser _ _ => s
  | PqOp.ListUsers _ => s
  | PqOp.UpdateUser fault u => (PostgresStorage.UpdateUser fault s u).2
  | PqOp.DeleteUser fault id => (PostgresStorage.DeleteUser fault s id).2
  | PqOp.CreateSession fault x => (PostgresStorage.CreateSession fault s x).2
  | PqOp.GetSession _ _ => s
  | PqOp.RevokeSession fault id => (PostgresStorage.RevokeSession fault s id).2
  | PqOp.DeleteSession fault id => (PostgresStorage.DeleteSession fault s id).2

/-- The call deletes the session `id`. -/
def PqOp.deletesSession (id : String) : PqOp → Bool
  | PqOp.DeleteSession _ id1 => id1 == id
  | _ => false

/-- The session `id` is stored and every stored row with that id has its
revoked flag set. -/
def RevokedIn (id : String) (s : Store) : Prop :=
  (∃ x ∈ s.sessions, x.ID = id) ∧ ∀ x ∈ s.sessions, x.ID = id → x.IsRevoked = true

/-! ## The error vocabulary -/

/-- The sentinels of the storage package (storer_gorm.go:11-16). -/
def errorVocabulary : List GoError :=
  [ErrProductNotFound, ErrUserNotFound, ErrOrderNotFound, ErrSessionNotFound]

/-- The kinds of the storage contract. -/
inductive ErrKind where
  | NotFound
  | AlreadyExists
  | Other
deriving DecidableEq, Repr

/-- The kind a caller reads off an error with `errors.Is` against the
sentinels of the storage package: every sentinel is a `NotFound`, and an
error that matches none has no kind of its own. -/
def kindOf (e : GoError) : ErrKind :=
  if errorVocabulary.any (fun t => errorsIs e t) then ErrKind.NotFound else ErrKind.Other

/-- The lookup reported that no row matches: its error is
`gorm.ErrRecordNotFound`, possibly wrapped. -/
def GormResult.noRow (r : GormResult) : Bool :=
  match r.Error with
  | some err => errorsIs err ErrRecordNotFound
  | none => false

/-- The store `s1` is `s` with one more order row, keyed `id`, and `n` more
item rows, every one with `order_id = id`; the other tables are the same. -/
def AddsOrder (s s1 : Store) (id n : Nat) : Prop :=
  (∃ hdr : Order, hdr.ID = id ∧ s1.orders = s.orders ++ [hdr]) ∧
  (∃ rows : List OrderItem,
    rows.length = n ∧ (∀ it ∈ rows, it.OrderID = id) ∧ s1.items = s.items ++ rows) ∧
  s1.products = s.products ∧ s1.users = s.users ∧ s1.sessions = s.sessions

/-! ## Sample values -/

/-- The driver fails the insert of the second item only. -/
def secondItemFails : PqOrderFaults :=
  { PqOrderFaults.ok with
    itemErr := fun i => if i = 1 then some (GoError.new "connection lost") else none }

/-- A store holding one order, of user 1, keyed 4. -/
def oneOrderStore : Store :=
  { Store.empty with orders := [{ sampleOrder with ID := 4, Items := [] }] }

/-- A store holding order 1 of user 2, with one item, and order 4 of
user 1. -/
def twoOrderStore : Store :=
  { Store.empty with
    orders := [{ sampleOrder with ID := 1, UserID := 2, Items := [] },
               { sampleOrder with ID := 4, Items := [] }],
    items := [⟨1, "widget", 2, "w.png", 999, 1, 1⟩] }

/-- A store holding the session "s1", not revoked. -/
def oneSessionStore : Store :=
  { Store.empty with sessions := [⟨"s1", "a@b.c", "token", false, 100⟩] }

/-- Calls of the declarative-mapping backend, none deleting session "s1": a
second insert under the same id with the flag clear, a user update, a
delete of another session, a delete of an order. -/
def sampleGormOps : List GormOp :=
  [GormOp.CreateSession none ⟨"s1", "x@y.z", "other", false, 200⟩,
   GormOp.UpdateUser none ⟨0, "Ann", "a@b.c", "pw", false⟩,
   GormOp.DeleteSession none "s2",
   GormOp.DeleteOrder DeleteOrderFaults.ok 1]

/-- The same calls on the raw-query backend. -/
def samplePqOps : List PqOp :=
  [PqOp.CreateSession none ⟨"s1", "x@y.z", "other", false, 200⟩,
   PqOp.UpdateUser none ⟨0, "Ann", "a@b.c", "pw", false⟩,
   PqOp.DeleteSession none "s2",
   PqOp.DeleteOrder DeleteOrderFaults.ok 1]

/-- Two users with the same email. -/
def userAnn : User := ⟨0, "Ann", "a@b.c", "pw1", false⟩

/-- The second user with the email of the first. -/
def userBob : User := ⟨0, "Bob", "a@b.c", "pw2", true⟩

/-! ## The statements of a transaction scope -/

/-- A statement `execTx` issues on the connection. -/
inductive TxCall where
  | Begin
  | Rollback
  | Commit
deriving DecidableEq, Repr

/-- storer_pq.go:90 `execTx`, the statements it issues, in order: `BeginTxx`;
when that succeeds the body, then `Rollback` if the body returned an error
and `Commit` if it did not. -/
def execTxCalls {α : Type} (f : TxFaults) (fn : Store → α → Option GoError × Store × α)
    (s : Store) (a : α) : List TxCall :=
  match f.beginErr with
  | some _ => [TxCall.Begin]
  | none =>
    match fn s a with
    | (some _, _, _) => [TxCall.Begin, TxCall.Rollback]
    | (none, _, _) => [TxCall.Begin, TxCall.Commit]

/-- A transaction body that fails with "insert failed" and writes nothing. -/
def failingBody (tx : Store) (_u : Unit) : Option GoError × Store × Unit :=
  (some (GoError.new "insert failed"), tx, ())

/-- The driver fails the rollback with "connection lost". -/
def rollbackFails : TxFaults :=
  { TxFaults.ok with rollbackErr := some (GoError.new "connection lost") }

/-! ## Token claims (token/claims.go) -/

/-- The registered claims of the token library (`jwt.RegisteredClaims`). A
timestamp is the library's numeric date, here the instant it holds. -/
structure RegisteredClaims where
  Issuer : String
  Subject : String
  Audience : List String
  ExpiresAt : Option Int
  NotBefore : Option Int
  IssuedAt : Option Int
  ID : String
deriving DecidableEq, Repr

/-- claims.go:11 `UserClaims`; the registered claims are embedded. -/
structure UserClaims where
  ID : Nat
  Email : String
  IsAdmin : Bool
  RegisteredClaims : RegisteredClaims
deriving DecidableEq, Repr

/-- claims.go:18 `NewUserClaims`. `newRandom` is what `uuid.NewRandom()`
returns, the identifier in its string form or the error. `time.Now()` is
read twice, first for `IssuedAt` (`now1`), then for `ExpiresAt` (`now2`);
instants and durations are in nanoseconds. `numericDate` is the library's
`jwt.NewNumericDate`, which rounds an instant to the precision of a token
timestamp. -/
def NewUserClaims (newRandom : Except GoError String) (numericDate : Int → Int)
    (now1 now2 : Int) (id : Nat) (email : String) (isAdmin : Bool) (duration : Int) :
    Option UserClaims × Option GoError :=
  match newRandom with
  | Except.error err => (none, some (GoError.wrap "error generating token id: " err))
  | Except.ok tokenId =>
    (some
      { ID := id, Email := email, IsAdmin := isAdmin,
        RegisteredClaims :=
          { Issuer := "", Subject := email, Audience := [],
            ExpiresAt := some (numericDate (now2 + duration)), NotBefore := none,
            IssuedAt := some (numericDate now1), ID := tokenId } },
      none)

/-- The library's default numeric date: the instant cut to whole seconds. -/
def truncateToSecond (t : Int) : Int := t - t % 1000000000

/-! ## Validation messages (internal/handler/exception.go) -/

/-- What the handler reads of a `validator.FieldError`: `Field()`, `Tag()`
and `Param()`. -/
structure FieldError where
  Field : String
  Tag : String
  Param : String
deriving DecidableEq, Repr

/-- exception.go:9 `ValidationError`. -/
structure ValidationError where
  Field : String
  Error : String
deriving DecidableEq, Repr

/-- exception.go:14 `getCustomValidationError`. -/
def getCustomValidationError (err : FieldError) : ValidationError :=
  let field := err.Field
  let tag := err.Tag
  let param := err.Param
  if tag = "required" then { Field := field, Error := "This field is required" }
  else if tag = "email" then { Field := field, Error := "Invalid email format" }
  else if tag = "min" then
    if field = "Password" then
      { Field := field, Error := "Password must be at least " ++ param ++ " characters long" }
    else { Field := field, Error := "Minimum value is " ++ param }
  else if tag = "max" then { Field := field, Error := "Maximum value is " ++ param }
  else if tag = "url" then { Field := field, Error := "Invalid URL format" }
  else if tag = "gt" then { Field := field, Error := "Value must be greater than " ++ param }
  else if tag = "oneof" then { Field := field, Error := "Value must be one of: " ++ param }
  else { Field := field, Error := "Failed on " ++ tag ++ " validation" }

/-- What `v.Struct(s)` returns: nil, the field errors
(`validator.ValidationErrors`), or, for a value that is not a struct, a
`*validator.InvalidValidationError`. -/
inductive StructResult where
  | valid
  | fieldErrors (errs : List FieldError)
  | invalidValue
deriving DecidableEq, Repr

/-- How a Go call ends: it returns a value or it panics. -/
inductive Outcome (α : Type) where
  | returns (value : α)
  | panics (text : String)
deriving DecidableEq, Repr

/-- exception.go:42 `ValidateStruct`, on what `v.Struct(s)` returned. The
type assertion `err.(validator.ValidationErrors)` has no second result, so
it panics on an error of another type. -/
def ValidateStruct (result : StructResult) : Outcome (List ValidationError) :=
  match result with
  | StructResult.valid => Outcome.returns []
  | StructResult.fieldErrors errs =>
    Outcome.returns (errs.foldl (fun errors err => errors ++ [getCustomValidationError err]) [])
  | StructResult.invalidValue =>
    Outcome.panics
      "interface conversion: error is *validator.InvalidValidationError, not validator.ValidationErrors"

/-! # Properties

## Lemmas on order creation -/

theorem createOrderItems_ok (itemErr : Nat → Option GoError) (orderID : Nat)
    (ois : List OrderItem) :
    ∀ (i : Nat) (tx tx1 : Store), createOrderItems itemErr orderID i ois tx = (none, tx1) →
      ∃ rows : List OrderItem, rows.length = ois.length ∧ (∀ it ∈ rows, it.OrderID = orderID) ∧
        tx1 = { tx with items := tx.items ++ rows } := by
  induction ois with
  | nil =>
    intro i tx tx1 h
    simp only [createOrderItems, Prod.mk.injEq, true_and] at h
    exact ⟨[], rfl, by simp, by simp [← h]⟩
  | cons oi rest ih =>
    intro i tx tx1 h
    cases hi : itemErr i with
    | some err => simp [createOrderItems, createOrderItem, hi] at h
    | none =>
      simp only [createOrderItems, createOrderItem, hi] at h
      obtain ⟨rows, hlen, hall, htx⟩ := ih _ _ _ h
      refine ⟨{ oi with ID := nextID (tx.items.map OrderItem.ID), OrderID := orderID } :: rows,
        by simp [hlen], ?_, ?_⟩
      · intro it hit
        rcases List.mem_cons.mp hit with rfl | hmem
        · rfl
        · exact hall it hmem
      · simp [htx]

theorem createOrderItems_err (itemErr : Nat → Option GoError) (orderID : Nat)
    (ois : List OrderItem) :
    ∀ (i : Nat) (tx : Store), (∃ k, k < ois.length ∧ itemErr (i + k) ≠ none) →
      (createOrderItems itemErr orderID i ois tx).1 ≠ none := by
  induction ois with
  | nil => intro i tx ⟨k, hk, _⟩; simp at hk
  | cons oi rest ih =>
    intro i tx ⟨k, hk, hne⟩
    cases hi : itemErr i with
    | some err => simp [createOrderItems, createOrderItem, hi]
    | none =>
      simp only [createOrderItems, createOrderItem, hi]
      apply ih
      cases k with
      | zero => simp [hi] at hne
      | succ k =>
        refine ⟨k, by simpa using hk, ?_⟩
        rwa [Nat.add_assoc, Nat.add_comm 1 k]

theorem gormBatchItems_ok (ois : List OrderItem) :
    ∀ (rows done : List OrderItem), gormBatchItems ois rows = some done →
      done.length = ois.length ∧
        done.map OrderItem.OrderID = ois.map OrderItem.OrderID := by
  induction ois with
  | nil => intro rows done h; simp [gormBatchItems] at h; simp [← h]
  | cons oi rest ih =>
    intro rows done h
    simp only [gormBatchItems] at h
    split at h
    · simp at h
    · split at h
      · simp at h
      · rename_i tl htl
        obtain ⟨hlen, hmap⟩ := ih _ _ htl
        simp only [Option.some.injEq] at h
        subst h
        simp [hlen, hmap]

theorem pq_createOrder_error_atomic (f : PqOrderFaults) (s : Store) (o : Order)
    (h : (PostgresStorage.CreateOrder f s o).1.2 ≠ none) :
    (PostgresStorage.CreateOrder f s o).1.1 = none ∧ (PostgresStorage.CreateOrder f s o).2 = s := by
  unfold PostgresStorage.CreateOrder execTx at *
  cases hb : f.tx.beginErr with
  | some e => simp [hb]
  | none =>
    simp only [hb] at h ⊢
    rcases hfn : createOrderTx f s o with ⟨_ | e, tx, o1⟩
    · simp only [hfn] at h ⊢
      cases hc : f.tx.commitErr with
      | some e => simp [hc]
      | none => simp [hc] at h
    · simp only [hfn]
      cases hr : f.tx.rollbackErr <;> simp [hr]

theorem pq_createOrder_fails (f : PqOrderFaults) (s : Store) (o : Order)
    (h : f.headerErr ≠ none ∨ (∃ i, i < o.Items.length ∧ f.itemErr i ≠ none) ∨
      f.tx.commitErr ≠ none) :
    (PostgresStorage.CreateOrder f s o).1.2 ≠ none := by
  unfold PostgresStorage.CreateOrder execTx
  cases hb : f.tx.beginErr with
  | some e => simp [hb]
  | none =>
    simp only [hb]
    rcases hfn : createOrderTx f s o with ⟨_ | e, tx, o1⟩
    · simp only [hfn]
      cases hc : f.tx.commitErr with
      | some e => simp [hc]
      | none =>
        exfalso
        unfold createOrderTx createOrder at hfn
        cases hp : f.prepareErr with
        | some e => simp [hp] at hfn
        | none =>
          cases hh : f.headerErr with
          | some e => simp [hp, hh] at hfn
          | none =>
            rcases h with h | ⟨i, hi, hne⟩ | h
            · exact h hh
            · simp only [hp, hh] at hfn
              have hk := createOrderItems_err f.itemErr (nextID (s.orders.map Order.ID))
                o.Items 0
                { s with orders := s.orders ++
                    [{ ID := nextID (s.orders.map Order.ID), PaymentMethod := o.PaymentMethod,
                       TaxPrice := o.TaxPrice, ShippingPrice := o.ShippingPrice,
                       TotalPrice := o.TotalPrice, UserID := o.UserID, Items := [] }] }
                ⟨i, hi, by simpa using hne⟩
              split at hfn
              · simp at hfn
              · rename_i tx2 heq
                simp [heq] at hk
            · exact h hc
    · simp only [hfn]
      cases hr : f.tx.rollbackErr <;> simp [hr]

theorem pq_createOrder_ok (f : PqOrderFaults) (s : Store) (o : Order)
    (h : (PostgresStorage.CreateOrder f s o).1.2 = none) :
    (PostgresStorage.CreateOrder f s o).1.1
        = some { o with ID := nextID (s.orders.map Order.ID) } ∧
      AddsOrder s (PostgresStorage.CreateOrder f s o).2 (nextID (s.orders.map Order.ID))
        o.Items.length := by
  unfold PostgresStorage.CreateOrder execTx at *
  cases hb : f.tx.beginErr with
  | some e => simp [hb] at h
  | none =>
    simp only [hb] at h ⊢
    rcases hfn : createOrderTx f s o with ⟨_ | e, tx, o1⟩
    · simp only [hfn] at h ⊢
      cases hc : f.tx.commitErr with
      | some e => simp [hc] at h
      | none =>
        simp only [hc]
        unfold createOrderTx createOrder at hfn
        cases hp : f.prepareErr with
        | some e => simp [hp] at hfn
        | none =>
          cases hh : f.headerErr with
          | some e => simp [hp, hh] at hfn
          | none =>
            simp only [hp, hh] at hfn
            split at hfn
            · simp at hfn
            · rename_i tx2 heq
              obtain ⟨rows, hlen, hall, htx⟩ := createOrderItems_ok _ _ _ _ _ _ heq
              simp only [Prod.mk.injEq, true_and] at hfn
              obtain ⟨h1, h2⟩ := hfn
              subst h1 h2
              refine ⟨rfl, ⟨_, rfl, by rw [htx]⟩, ⟨rows, hlen, hall, by rw [htx]⟩, ?_, ?_, ?_⟩ <;>
                rw [htx]
    · simp only [hfn] at h
      cases hr : f.tx.rollbackErr <;> simp [hr] at h

theorem gormCreateItems_ok (itemsErr : Option GoError) (tx tx1 : Store)
    (ois its : List OrderItem) (h : gormCreateItems itemsErr tx ois = (none, tx1, its)) :
    its.length = ois.length ∧ its.map OrderItem.OrderID = ois.map OrderItem.OrderID ∧
      tx1 = { tx with items := tx.items ++ its } := by
  unfold gormCreateItems at h
  cases hi : itemsErr with
  | some e => simp [hi] at h
  | none =>
    simp only [hi] at h
    cases hb : gormBatchItems ois tx.items with
    | none => simp [hb] at h
    | some rows =>
      simp only [hb, Prod.mk.injEq, true_and] at h
      obtain ⟨h1, h2⟩ := h
      subst h2
      obtain ⟨hl, hm⟩ := gormBatchItems_ok _ _ _ hb
      exact ⟨hl, hm, h1.symm⟩

theorem gormKey_ne_zero (supplied : Nat) (ids : List Nat) : gormKey supplied ids ≠ 0 := by
  unfold gormKey nextID
  split
  · exact Nat.succ_ne_zero _
  · assumption

theorem map_setOrderID_keys (rows : List OrderItem) (p : OrderItem → Bool) (k : Nat) :
    (rows.map (fun r => if p r then { r with OrderID := k } else r)).map OrderItem.ID
      = rows.map OrderItem.ID := by
  induction rows with
  | nil => rfl
  | cons a l ih =>
    simp only [List.map_cons, ih, List.cons.injEq, and_true]
    split <;> rfl

theorem gormSaveItems_keeps_keys (ois : List OrderItem) :
    ∀ (rows : List OrderItem) (k : Nat), k ∈ rows.map OrderItem.ID →
      k ∈ (gormSaveItems ois rows).1.map OrderItem.ID := by
  induction ois with
  | nil => intro rows k h; exact h
  | cons oi rest ih =>
    intro rows k h
    simp only [gormSaveItems]
    apply ih
    split
    · rw [map_setOrderID_keys]
      exact h
    · rw [List.map_append]
      exact List.mem_append_left _ h

/-- After the mapper has saved a non-empty list of items, the first of them
has a non-zero key, and that key is in the table. -/
theorem gormSaveItems_head (oi : OrderItem) (rest rows : List OrderItem) :
    ∃ (x : OrderItem) (tl : List OrderItem),
      (gormSaveItems (oi :: rest) rows).2 = x :: tl ∧ x.ID ≠ 0 ∧
        x.ID ∈ (gormSaveItems (oi :: rest) rows).1.map OrderItem.ID := by
  refine ⟨{ oi with ID := gormKey oi.ID (rows.map OrderItem.ID) }, _, rfl,
    gormKey_ne_zero _ _, ?_⟩
  simp only [gormSaveItems]
  apply gormSaveItems_keeps_keys
  split
  · rw [map_setOrderID_keys]
    assumption
  · rw [List.map_append]
    exact List.mem_append_right _ (by simp)

/-- A batched insert whose first item carries a non-zero key that is already
in the table is refused. -/
theorem gormBatchItems_stored_key (x : OrderItem) (rest rows : List OrderItem)
    (h0 : x.ID ≠ 0) (hm : x.ID ∈ rows.map OrderItem.ID) :
    gormBatchItems (x :: rest) rows = none := by
  have hk : gormKey x.ID (rows.map OrderItem.ID) = x.ID := by simp [gormKey, h0]
  simp only [gormBatchItems, hk, hm, if_true]

/-- The body of the mapper's `CreateOrder` fails for every order that has
items: they are stored by the create of the order, and the insert of
`o.Items` that follows meets their keys. -/
theorem gormCreateOrderTx_items_fail (f : GormOrderFaults) (s : Store) (o : Order)
    (h : o.Items ≠ []) : (gormCreateOrderTx f s o).1 ≠ none := by
  unfold gormCreateOrderTx gormCreateOrder
  cases hh : f.headerErr with
  | some e => simp
  | none =>
    by_cases hdup : gormKey o.ID (s.orders.map Order.ID) ∈ s.orders.map Order.ID
    · simp [hdup]
    · simp only [hdup, if_false]
      obtain ⟨a, l, hal⟩ := List.exists_cons_of_ne_nil h
      rw [hal, List.map_cons]
      obtain ⟨x, tl, hx, hx0, hxm⟩ := gormSaveItems_head
        { a with OrderID := gormKey o.ID (s.orders.map Order.ID) }
        (l.map (fun it => { it with OrderID := gormKey o.ID (s.orders.map Order.ID) })) s.items
      simp only [hx, List.length_cons, Nat.zero_lt_succ, if_true, List.map_cons, gormCreateItems]
      cases hi : f.itemsErr with
      | some e => simp
      | none =>
        simp only
        rw [gormBatchItems_stored_key
          { x with OrderID := gormKey o.ID (s.orders.map Order.ID) } _ _ hx0 hxm]
        simp

theorem gorm_createOrder_error_atomic (f : GormOrderFaults) (s : Store) (o : Order)
    (h : (GORMStorage.CreateOrder f s o).1.2 ≠ none) :
    (GORMStorage.CreateOrder f s o).1.1 = none ∧ (GORMStorage.CreateOrder f s o).2 = s := by
  unfold GORMStorage.CreateOrder gormTransaction at *
  cases hb : f.tx.beginErr with
  | some e => simp [hb]
  | none =>
    simp only [hb] at h ⊢
    rcases hfn : gormCreateOrderTx f s o with ⟨_ | e, tx, o1⟩
    · simp only [hfn] at h ⊢
      cases hc : f.tx.commitErr with
      | some e => simp [hc]
      | none => simp [hc] at h
    · simp [hfn]

/-- The mapper's `CreateOrder` fails for every order that has items,
whatever the driver reports, and leaves the store as it was. -/
theorem gorm_createOrder_items_fail (f : GormOrderFaults) (s : Store) (o : Order)
    (h : o.Items ≠ []) :
    (GORMStorage.CreateOrder f s o).1.1 = none ∧ (GORMStorage.CreateOrder f s o).1.2 ≠ none ∧
      (GORMStorage.CreateOrder f s o).2 = s := by
  have herr : (GORMStorage.CreateOrder f s o).1.2 ≠ none := by
    unfold GORMStorage.CreateOrder gormTransaction
    cases hb : f.tx.beginErr with
    | some e => simp
    | none =>
      simp only
      rcases hfn : gormCreateOrderTx f s o with ⟨_ | e, tx, o1⟩
      · exact absurd (by rw [hfn]) (gormCreateOrderTx_items_fail f s o h)
      · simp
  exact ⟨(gorm_createOrder_error_atomic f s o herr).1, herr,
    (gorm_createOrder_error_atomic f s o herr).2⟩

/-- The mapper's `CreateOrder` succeeds only for an order without items, and
then adds the header row. -/
theorem gorm_createOrder_ok (f : GormOrderFaults) (s : Store) (o : Order)
    (h : (GORMStorage.CreateOrder f s o).1.2 = none) :
    o.Items = [] ∧
      (GORMStorage.CreateOrder f s o).1.1
        = some { o with ID := gormKey o.ID (s.orders.map Order.ID) } ∧
      (GORMStorage.CreateOrder f s o).2
        = { s with orders :=
              s.orders ++ [{ o with ID := gormKey o.ID (s.orders.map Order.ID), Items := [] }] } := by
  have hitems : o.Items = [] := by
    by_contra hne
    exact (gorm_createOrder_items_fail f s o hne).2.1 h
  refine ⟨hitems, ?_⟩
  obtain ⟨oid, pm, tax, ship, total, uid, items⟩ := o
  simp only at hitems
  subst hitems
  unfold GORMStorage.CreateOrder gormTransaction gormCreateOrderTx gormCreateOrder at *
  cases hb : f.tx.beginErr with
  | some e => simp [hb] at h
  | none =>
    cases hh : f.headerErr with
    | some e => simp [hb, hh] at h
    | none =>
      by_cases hdup : gormKey oid (s.orders.map Order.ID) ∈ s.orders.map Order.ID
      · simp [hb, hh, hdup] at h
      · cases hc : f.tx.commitErr with
        | some e => simp [hb, hh, hdup, hc, gormSaveItems] at h
        | none => simp [hb, hh, hdup, hc, gormSaveItems]

/-! ## Order creation: the claims -/

/-- C2. In the raw-query backend, when the header insert fails, or the
insert of some item fails, or the commit fails, `CreateOrder` returns no
order and a non-nil error, and the committed store is the store before the
call. -/
theorem pq_createOrder_failure_leaves_store (f : PqOrderFaults) (s : Store) (o : Order)
    (h : f.headerErr ≠ none ∨ (∃ i, i < o.Items.length ∧ f.itemErr i ≠ none) ∨
      f.tx.commitErr ≠ none) :
    (PostgresStorage.CreateOrder f s o).1.1 = none ∧
      (PostgresStorage.CreateOrder f s o).1.2 ≠ none ∧
      (PostgresStorage.CreateOrder f s o).2 = s :=
  have herr := pq_createOrder_fails f s o h
  ⟨(pq_createOrder_error_atomic f s o herr).1, herr, (pq_createOrder_error_atomic f s o herr).2⟩

/-- C2 where the second of two item inserts fails, on a store that already
holds an order. -/
theorem pq_createOrder_failure_leaves_store_witness :
    (PostgresStorage.CreateOrder secondItemFails
        oneOrderStore
        sampleOrder).1.1 = none ∧
      (PostgresStorage.CreateOrder secondItemFails
        oneOrderStore
        sampleOrder).1.2 ≠ none ∧
      (PostgresStorage.CreateOrder secondItemFails
        oneOrderStore
        sampleOrder).2 = oneOrderStore :=
  pq_createOrder_failure_leaves_store secondItemFails
    oneOrderStore sampleOrder
    (Or.inr (Or.inl ⟨1, by decide, by decide⟩))

/-- C3 (the raw-query backend does not do it). On the empty store, with
every statement succeeding, the raw-query `CreateOrder` returns the
submitted two-item order with the new identifier 1 and with both items
still carrying `OrderID` 0, while the two item rows it stored carry
`order_id` 1: the loop at storer_pq.go:145 stamps and inserts a copy of each
item and never writes the elements of `o.Items`. -/
theorem pq_createOrder_returns_items_unstamped :
    (PostgresStorage.CreateOrder PqOrderFaults.ok Store.empty sampleOrder).1
        = (some { sampleOrder with ID := 1 }, none) ∧
      ((PostgresStorage.CreateOrder PqOrderFaults.ok Store.empty sampleOrder).1.1.map
        (fun r => r.Items.map OrderItem.OrderID)) = some [0, 0] ∧
      (PostgresStorage.CreateOrder PqOrderFaults.ok Store.empty sampleOrder).2.items.map
        OrderItem.OrderID = [1, 1] :=
  ⟨rfl, rfl, rfl⟩

/-! ## Lookups of the declarative-mapping backend -/

theorem gormFirst_noRow_iff {α : Type} (zero : α) (rows : List α) (p : α → Bool) :
    (gormFirst zero none rows p).2.noRow = true ↔ ∀ r ∈ rows, p r = false := by
  unfold gormFirst
  cases h : rows.find? p with
  | some r =>
    have hp := List.find?_some h
    have hm := List.mem_of_find?_eq_some h
    simp only [GormResult.noRow, Bool.false_eq_true, false_iff]
    intro hall
    rw [hall r hm] at hp
    exact Bool.false_ne_true hp
  | none =>
    have hall := List.find?_eq_none.mp h
    simp only [GormResult.noRow]
    constructor
    · intro _ r hr
      simpa using hall r hr
    · intro _
      decide

/-- C4. In the declarative-mapping backend, each of `GetProduct`, `GetUser`,
`GetSession` and `GetOrder` returns its entity's own NotFound error exactly
when the lookup reports that no row matches, and returns no record whenever
it returns an error. -/
theorem gorm_get_notFound_iff_no_row (fault : Option GoError) (s : Store) (id userID : Nat)
    (email sid : String) :
    (((GORMStorage.GetProduct fault s id).2 = some ErrProductNotFound ↔
        (gormFirst Product.zero fault s.products (fun p => p.ID == id)).2.noRow = true) ∧
      ((GORMStorage.GetProduct fault s id).2 ≠ none →
        (GORMStorage.GetProduct fault s id).1 = none)) ∧
    (((GORMStorage.GetUser fault s email).2 = some ErrUserNotFound ↔
        (gormFirst User.zero fault s.users (fun u => u.Email == email)).2.noRow = true) ∧
      ((GORMStorage.GetUser fault s email).2 ≠ none →
        (GORMStorage.GetUser fault s email).1 = none)) ∧
    (((GORMStorage.GetSession fault s sid).2 = some ErrSessionNotFound ↔
        (gormFirst Session.zero fault s.sessions (fun x => x.ID == sid)).2.noRow = true) ∧
      ((GORMStorage.GetSession fault s sid).2 ≠ none →
        (GORMStorage.GetSession fault s sid).1 = none)) ∧
    (((GORMStorage.GetOrder fault s userID).2 = some ErrOrderNotFound ↔
        (gormFirst Order.zero fault s.orders (fun o => o.UserID == userID)).2.noRow = true) ∧
      ((GORMStorage.GetOrder fault s userID).2 ≠ none →
        (GORMStorage.GetOrder fault s userID).1 = none)) := by
  refine ⟨⟨?_, ?_⟩, ⟨?_, ?_⟩, ⟨?_, ?_⟩, ⟨?_, ?_⟩⟩
  · unfold GORMStorage.GetProduct GormResult.noRow
    rcases gormFirst Product.zero fault s.products (fun p => p.ID == id) with ⟨v, ⟨_ | e, n⟩⟩
    · simp
    · by_cases he : errorsIs e ErrRecordNotFound = true <;> simp [he, ErrProductNotFound]
  · unfold GORMStorage.GetProduct
    rcases gormFirst Product.zero fault s.products (fun p => p.ID == id) with ⟨v, ⟨_ | e, n⟩⟩
    · simp
    · by_cases he : errorsIs e ErrRecordNotFound = true <;> simp [he]
  · unfold GORMStorage.GetUser GormResult.noRow
    rcases gormFirst User.zero fault s.users (fun u => u.Email == email) with ⟨v, ⟨_ | e, n⟩⟩
    · simp
    · by_cases he : errorsIs e ErrRecordNotFound = true <;> simp [he, ErrUserNotFound]
  · unfold GORMStorage.GetUser
    rcases gormFirst User.zero fault s.users (fun u => u.Email == email) with ⟨v, ⟨_ | e, n⟩⟩
    · simp
    · by_cases he : errorsIs e ErrRecordNotFound = true <;> simp [he]
  · unfold GORMStorage.GetSession GormResult.noRow
    rcases gormFirst Session.zero fault s.sessions (fun x => x.ID == sid) with ⟨v, ⟨_ | e, n⟩⟩
    · simp
    · by_cases he : errorsIs e ErrRecordNotFound = true <;> simp [he, ErrSessionNotFound]
  · unfold GORMStorage.GetSession
    rcases gormFirst Session.zero fault s.sessions (fun x => x.ID == sid) with ⟨v, ⟨_ | e, n⟩⟩
    · simp
    · by_cases he : errorsIs e ErrRecordNotFound = true <;> simp [he]
  · unfold GORMStorage.GetOrder GormResult.noRow
    rcases gormFirst Order.zero fault s.orders (fun o => o.UserID == userID) with ⟨v, ⟨_ | e, n⟩⟩
    · simp
    · by_cases he : errorsIs e ErrRecordNotFound = true <;> simp [he, ErrOrderNotFound]
  · unfold GORMStorage.GetOrder
    rcases gormFirst Order.zero fault s.orders (fun o => o.UserID == userID) with ⟨v, ⟨_ | e, n⟩⟩
    · simp
    · by_cases he : errorsIs e ErrRecordNotFound = true <;> simp [he]

/-! ## Deletes and the zero-row case -/

theorem gormDelete_none {α : Type} (rows : List α) (p : α → Bool) :
    gormDelete none rows p = (rows.filter (fun r => !p r), ⟨none, (rows.filter p).length⟩) := rfl

theorem filter_not_eq_self {α : Type} (rows : List α) (p : α → Bool)
    (h : ∀ r ∈ rows, p r = false) : rows.filter (fun r => !p r) = rows := by
  apply List.filter_eq_self.mpr
  intro r hr
  simp [h r hr]

theorem filter_eq_nil_of_none {α : Type} (rows : List α) (p : α → Bool)
    (h : ∀ r ∈ rows, p r = false) : rows.filter p = [] := by
  apply List.filter_eq_nil_iff.mpr
  intro r hr
  simp [h r hr]

/-- `DeleteProduct`, `DeleteUser` and `DeleteSession` of the
declarative-mapping backend return their NotFound error when the statement
succeeds and deletes no row. -/
theorem gorm_delete_no_row (s : Store) (id : Nat) (sid : String)
    (hp : ∀ p ∈ s.products, p.ID ≠ id) (hu : ∀ u ∈ s.users, u.ID ≠ id)
    (hs : ∀ x ∈ s.sessions, x.ID ≠ sid) :
    GORMStorage.DeleteProduct none s id = (some ErrProductNotFound, s) ∧
      GORMStorage.DeleteUser none s id = (some ErrUserNotFound, s) ∧
      GORMStorage.DeleteSession none s sid = (some ErrSessionNotFound, s) := by
  have h1 : ∀ p ∈ s.products, (p.ID == id) = false := fun p hp1 => by simpa using hp p hp1
  have h2 : ∀ u ∈ s.users, (u.ID == id) = false := fun u hu1 => by simpa using hu u hu1
  have h3 : ∀ x ∈ s.sessions, (x.ID == sid) = false := fun x hx => by simpa using hs x hx
  refine ⟨?_, ?_, ?_⟩
  · simp only [GORMStorage.DeleteProduct, gormDelete_none, filter_eq_nil_of_none _ _ h1,
      filter_not_eq_self _ _ h1, List.length_nil, if_true]
  · simp only [GORMStorage.DeleteUser, gormDelete_none, filter_eq_nil_of_none _ _ h2,
      filter_not_eq_self _ _ h2, List.length_nil, if_true]
  · simp only [GORMStorage.DeleteSession, gormDelete_none, filter_eq_nil_of_none _ _ h3,
      filter_not_eq_self _ _ h3, List.length_nil, if_true]

/-- `DeleteOrder` of the declarative-mapping backend returns nil whenever
its statements succeed, whatever they deleted. -/
theorem gorm_deleteOrder_ok (s : Store) (id : Nat) :
    GORMStorage.DeleteOrder DeleteOrderFaults.ok s id =
      (none, { s with items := s.items.filter (fun it => !(it.OrderID == id)),
                      orders := s.orders.filter (fun o => !(o.ID == id)) }) := rfl

/-- C5 (`DeleteOrder` does not do it). On the empty store, nothing failing,
`DeleteOrder(1)` of the declarative-mapping backend deletes no row and
returns nil, while `DeleteProduct(1)`, `DeleteUser(1)` and
`DeleteSession("s1")` return their NotFound error: `DeleteOrder` has no
check of the rows affected (storer_gorm.go:140-154). -/
theorem gorm_deleteOrder_no_row_returns_nil :
    GORMStorage.DeleteOrder DeleteOrderFaults.ok Store.empty 1 = (none, Store.empty) ∧
      GORMStorage.DeleteProduct none Store.empty 1 = (some ErrProductNotFound, Store.empty) ∧
      GORMStorage.DeleteUser none Store.empty 1 = (some ErrUserNotFound, Store.empty) ∧
      GORMStorage.DeleteSession none Store.empty "s1" = (some ErrSessionNotFound, Store.empty) :=
  ⟨rfl, rfl, rfl, rfl⟩

/-! ## The raw-query backend on a key that matches no row -/

theorem sqlGet_no_row {α : Type} (zero : α) (rows : List α) (p : α → Bool)
    (h : ∀ r ∈ rows, p r = false) : sqlGet zero none rows p = (zero, some ErrNoRows) := by
  have hf : rows.find? p = none := List.find?_eq_none.mpr (fun r hr => by simp [h r hr])
  simp [sqlGet, hf]

theorem sqlDelete_no_row {α : Type} (rows : List α) (p : α → Bool)
    (h : ∀ r ∈ rows, p r = false) : sqlDelete none rows p = (rows, none) := by
  simp [sqlDelete, filter_not_eq_self rows p h]

theorem map_ite_no_row {α : Type} (rows : List α) (p : α → Bool) (g : α → α)
    (h : ∀ r ∈ rows, p r = false) : rows.map (fun r => if p r then g r else r) = rows := by
  induction rows with
  | nil => rfl
  | cons a l ih =>
    have ha : p a = false := h a (List.mem_cons_self a l)
    have hl : ∀ r ∈ l, p r = false := fun r hr => h r (List.mem_cons_of_mem a hr)
    simp [ha, ih hl]

/-- C6, the counterexample. On the empty store, nothing failing, the
raw-query `GetProduct(1)` returns the driver's no-rows error wrapped, which
is not `ErrProductNotFound` and does not have it in its cause chain, and the
raw-query `DeleteProduct(1)` returns nil; the declarative-mapping backend
returns `ErrProductNotFound` from both. -/
theorem pq_no_row_differs_from_gorm :
    (PostgresStorage.GetProduct none Store.empty 1).2
        = some (GoError.wrap "error getting product: " ErrNoRows) ∧
      (PostgresStorage.GetProduct none Store.empty 1).2 ≠ some ErrProductNotFound ∧
      errorsIs (GoError.wrap "error getting product: " ErrNoRows) ErrProductNotFound = false ∧
      (GORMStorage.GetProduct none Store.empty 1).2 = some ErrProductNotFound ∧
      (PostgresStorage.DeleteProduct none Store.empty 1).1 = none ∧
      (GORMStorage.DeleteProduct none Store.empty 1).1 = some ErrProductNotFound := by
  refine ⟨rfl, by decide, by decide, rfl, rfl, rfl⟩

/-- C6, amended. For every key that matches no row and no driver failure,
the raw-query backend does not classify: `GetProduct`, `GetUser`,
`GetSession` and `GetOrder` return no record and the driver's no-rows error
wrapped with the name of the operation (the cause is kept, and the error is
none of the NotFound sentinels), and `DeleteProduct`, `DeleteUser`,
`DeleteSession` and `RevokeSession` return nil and leave the store as it
was. -/
theorem pq_no_row_is_wrapped_or_nil (s : Store) (id userId : Int) (email sid : String)
    (hp : ∀ p ∈ s.products, (p.ID : Int) ≠ id) (hu : ∀ u ∈ s.users, (u.ID : Int) ≠ id)
    (he : ∀ u ∈ s.users, u.Email ≠ email) (hs : ∀ x ∈ s.sessions, x.ID ≠ sid)
    (ho : ∀ o ∈ s.orders, (o.UserID : Int) ≠ userId) :
    (PostgresStorage.GetProduct none s id
        = (none, some (GoError.wrap "error getting product: " ErrNoRows)) ∧
      PostgresStorage.GetUser none s email
        = (none, some (GoError.wrap "error getting user: " ErrNoRows)) ∧
      PostgresStorage.GetSession none s sid
        = (none, some (GoError.wrap "error getting session: " ErrNoRows)) ∧
      PostgresStorage.GetOrder none none s userId
        = (none, some (GoError.wrap "error getting order: " ErrNoRows))) ∧
    (∀ text : String, errorsIs (GoError.wrap text ErrNoRows) ErrNoRows = true ∧
      kindOf (GoError.wrap text ErrNoRows) = ErrKind.Other) ∧
    (PostgresStorage.DeleteProduct none s id = (none, s) ∧
      PostgresStorage.DeleteUser none s id = (none, s) ∧
      PostgresStorage.DeleteSession none s sid = (none, s) ∧
      PostgresStorage.RevokeSession none s sid = (none, s)) := by
  have h1 : ∀ p ∈ s.products, ((p.ID : Int) == id) = false := fun p h => by simpa using hp p h
  have h2 : ∀ u ∈ s.users, ((u.ID : Int) == id) = false := fun u h => by simpa using hu u h
  have h3 : ∀ u ∈ s.users, (u.Email == email) = false := fun u h => by simpa using he u h
  have h4 : ∀ x ∈ s.sessions, (x.ID == sid) = false := fun x h => by simpa using hs x h
  have h5 : ∀ o ∈ s.orders, ((o.UserID : Int) == userId) = false :=
    fun o h => by simpa using ho o h
  refine ⟨⟨?_, ?_, ?_, ?_⟩, ?_, ?_, ?_, ?_, ?_⟩
  · simp only [PostgresStorage.GetProduct, sqlGet_no_row _ _ _ h1]
  · simp only [PostgresStorage.GetUser, sqlGet_no_row _ _ _ h3]
  · simp only [PostgresStorage.GetSession, sqlGet_no_row _ _ _ h4]
  · simp only [PostgresStorage.GetOrder, sqlGet_no_row _ _ _ h5]
  · intro text
    constructor
    · simp [errorsIs, ErrNoRows]
    · simp [kindOf, errorVocabulary, errorsIs, ErrNoRows, ErrProductNotFound, ErrUserNotFound,
        ErrOrderNotFound, ErrSessionNotFound]
  · simp only [PostgresStorage.DeleteProduct, sqlDelete_no_row _ _ h1]
  · simp only [PostgresStorage.DeleteUser, sqlDelete_no_row _ _ h2]
  · simp only [PostgresStorage.DeleteSession, sqlDelete_no_row _ _ h4]
  · have hm := map_ite_no_row s.sessions (fun x => x.ID == sid)
      (fun x => { x with IsRevoked := true }) h4
    simp only [PostgresStorage.RevokeSession, hm]

/-- C6, amended, on the store holding one order of user 1: product 7, user
7, the email and the session id are not there, and user 2 has no order. -/
theorem pq_no_row_is_wrapped_or_nil_witness :
    (PostgresStorage.GetProduct none oneOrderStore 7
        = (none, some (GoError.wrap "error getting product: " ErrNoRows)) ∧
      PostgresStorage.GetUser none oneOrderStore "a@b.c"
        = (none, some (GoError.wrap "error getting user: " ErrNoRows)) ∧
      PostgresStorage.GetSession none oneOrderStore "s1"
        = (none, some (GoError.wrap "error getting session: " ErrNoRows)) ∧
      PostgresStorage.GetOrder none none oneOrderStore 2
        = (none, some (GoError.wrap "error getting order: " ErrNoRows))) ∧
    (∀ text : String, errorsIs (GoError.wrap text ErrNoRows) ErrNoRows = true ∧
      kindOf (GoError.wrap text ErrNoRows) = ErrKind.Other) ∧
    (PostgresStorage.DeleteProduct none oneOrderStore 7 = (none, oneOrderStore) ∧
      PostgresStorage.DeleteUser none oneOrderStore 7 = (none, oneOrderStore) ∧
      PostgresStorage.DeleteSession none oneOrderStore "s1" = (none, oneOrderStore) ∧
      PostgresStorage.RevokeSession none oneOrderStore "s1" = (none, oneOrderStore)) :=
  pq_no_row_is_wrapped_or_nil oneOrderStore 7 2 "a@b.c" "s1"
    (by simp [oneOrderStore, Store.empty]) (by simp [oneOrderStore, Store.empty])
    (by simp [oneOrderStore, Store.empty]) (by simp [oneOrderStore, Store.empty])
    (by simp [oneOrderStore, Store.empty, sampleOrder])

/-! ## Deleting an order -/

theorem gorm_deleteOrder_success (f : DeleteOrderFaults) (s : Store) (id : Nat)
    (h : (GORMStorage.DeleteOrder f s id).1 = none) :
    (GORMStorage.DeleteOrder f s id).2 =
      { s with items := s.items.filter (fun it => !(it.OrderID == id)),
               orders := s.orders.filter (fun o => !(o.ID == id)) } := by
  unfold GORMStorage.DeleteOrder gormTransaction gormDeleteOrderTx gormDelete at *
  cases hb : f.tx.beginErr <;> cases hi : f.itemsErr <;> cases ho : f.orderErr <;>
    cases hc : f.tx.commitErr <;> simp_all

theorem pq_deleteOrder_success (f : DeleteOrderFaults) (s : Store) (id : Int)
    (h : (PostgresStorage.DeleteOrder f s id).1 = none) :
    (PostgresStorage.DeleteOrder f s id).2 =
      { s with items := s.items.filter (fun it => !((it.OrderID : Int) == id)),
               orders := s.orders.filter (fun o => !((o.ID : Int) == id)) } := by
  unfold PostgresStorage.DeleteOrder execTx deleteOrderTx sqlDelete at *
  cases hb : f.tx.beginErr <;> cases hi : f.itemsErr <;> cases ho : f.orderErr <;>
    cases hc : f.tx.commitErr <;> cases hr : f.tx.rollbackErr <;> simp_all

theorem gorm_getOrder_notFound_iff (t : Store) (u : Nat) :
    GORMStorage.GetOrder none t u = (none, some ErrOrderNotFound) ↔
      ∀ o ∈ t.orders, o.UserID ≠ u := by
  unfold GORMStorage.GetOrder gormFirst
  cases hf : t.orders.find? (fun o => o.UserID == u) with
  | some r =>
    have hp := List.find?_some hf
    have hm := List.mem_of_find?_eq_some hf
    simp only [Prod.mk.injEq, false_and, false_iff, reduceCtorEq]
    intro hall
    exact hall r hm (by simpa using hp)
  | none =>
    have hall := List.find?_eq_none.mp hf
    have hIs : errorsIs ErrRecordNotFound ErrRecordNotFound = true := by decide
    simp only [hIs, if_true, true_iff]
    intro o ho
    simpa using hall o ho

theorem pq_getOrder_noRows_iff (t : Store) (u : Int) :
    PostgresStorage.GetOrder none none t u
        = (none, some (GoError.wrap "error getting order: " ErrNoRows)) ↔
      ∀ o ∈ t.orders, (o.UserID : Int) ≠ u := by
  unfold PostgresStorage.GetOrder sqlGet sqlSelect
  cases hf : t.orders.find? (fun o => (o.UserID : Int) == u) with
  | some r =>
    have hp := List.find?_some hf
    have hm := List.mem_of_find?_eq_some hf
    simp only [Prod.mk.injEq, false_and, false_iff, reduceCtorEq]
    intro hall
    exact hall r hm (by simpa using hp)
  | none =>
    have hall := List.find?_eq_none.mp hf
    simp only [true_iff]
    intro o ho
    simpa using hall o ho

/-- C7, the counterexample. The store holds order 1 of user 2 and order 4 of
user 1. `DeleteOrder(1)` succeeds in both backends, and `GetOrder(1)`
afterwards returns order 4, the order of user 1, with no error. -/
theorem getOrder_after_deleteOrder_finds_order :
    (GORMStorage.DeleteOrder DeleteOrderFaults.ok twoOrderStore 1).1 = none ∧
      GORMStorage.GetOrder none (GORMStorage.DeleteOrder DeleteOrderFaults.ok twoOrderStore 1).2 1
        = (some { sampleOrder with ID := 4, Items := [] }, none) ∧
      (PostgresStorage.DeleteOrder DeleteOrderFaults.ok twoOrderStore 1).1 = none ∧
      PostgresStorage.GetOrder none none
          (PostgresStorage.DeleteOrder DeleteOrderFaults.ok twoOrderStore 1).2 1
        = (some { sampleOrder with ID := 4, Items := [] }, none) := by
  refine ⟨rfl, ?_, rfl, ?_⟩ <;> decide

/-- C7, amended. After a successful `DeleteOrder(id)`, in either backend, no
order row with that id and no item row with `order_id` equal to it remains
in the store. `GetOrder` looks an order up by the id of its owning user: on
the store after the delete, with no driver failure, `GetOrder(u)` returns
the order NotFound error in the declarative-mapping backend, and the
driver's no-rows error wrapped in the raw-query backend, exactly when no
remaining order belongs to user `u`. -/
theorem deleteOrder_removes_order_and_items (f : DeleteOrderFaults) (s : Store) (id : Nat)
    (pid : Int) :
    ((GORMStorage.DeleteOrder f s id).1 = none →
      (∀ o ∈ (GORMStorage.DeleteOrder f s id).2.orders, o.ID ≠ id) ∧
      (∀ it ∈ (GORMStorage.DeleteOrder f s id).2.items, it.OrderID ≠ id) ∧
      ∀ u : Nat,
        GORMStorage.GetOrder none (GORMStorage.DeleteOrder f s id).2 u
            = (none, some ErrOrderNotFound) ↔
          ∀ o ∈ (GORMStorage.DeleteOrder f s id).2.orders, o.UserID ≠ u) ∧
    ((PostgresStorage.DeleteOrder f s pid).1 = none →
      (∀ o ∈ (PostgresStorage.DeleteOrder f s pid).2.orders, (o.ID : Int) ≠ pid) ∧
      (∀ it ∈ (PostgresStorage.DeleteOrder f s pid).2.items, (it.OrderID : Int) ≠ pid) ∧
      ∀ u : Int,
        PostgresStorage.GetOrder none none (PostgresStorage.DeleteOrder f s pid).2 u
            = (none, some (GoError.wrap "error getting order: " ErrNoRows)) ↔
          ∀ o ∈ (PostgresStorage.DeleteOrder f s pid).2.orders, (o.UserID : Int) ≠ u) := by
  constructor
  · intro h
    refine ⟨?_, ?_, fun u => gorm_getOrder_notFound_iff _ u⟩
    · rw [gorm_deleteOrder_success f s id h]
      intro o ho
      simpa using (List.mem_filter.mp ho).2
    · rw [gorm_deleteOrder_success f s id h]
      intro it hit
      simpa using (List.mem_filter.mp hit).2
  · intro h
    refine ⟨?_, ?_, fun u => pq_getOrder_noRows_iff _ u⟩
    · rw [pq_deleteOrder_success f s pid h]
      intro o ho
      simpa using (List.mem_filter.mp ho).2
    · rw [pq_deleteOrder_success f s pid h]
      intro it hit
      simpa using (List.mem_filter.mp hit).2

/-- C7, amended, at `DeleteOrder(1)` on the store holding order 1 of user 2
and order 4 of user 1. -/
theorem deleteOrder_removes_order_and_items_witness :
    ((∀ o ∈ (GORMStorage.DeleteOrder DeleteOrderFaults.ok twoOrderStore 1).2.orders, o.ID ≠ 1) ∧
      (∀ it ∈ (GORMStorage.DeleteOrder DeleteOrderFaults.ok twoOrderStore 1).2.items,
        it.OrderID ≠ 1) ∧
      ∀ u : Nat,
        GORMStorage.GetOrder none (GORMStorage.DeleteOrder DeleteOrderFaults.ok twoOrderStore 1).2 u
            = (none, some ErrOrderNotFound) ↔
          ∀ o ∈ (GORMStorage.DeleteOrder DeleteOrderFaults.ok twoOrderStore 1).2.orders,
            o.UserID ≠ u) ∧
    ((∀ o ∈ (PostgresStorage.DeleteOrder DeleteOrderFaults.ok twoOrderStore 1).2.orders,
        (o.ID : Int) ≠ 1) ∧
      (∀ it ∈ (PostgresStorage.DeleteOrder DeleteOrderFaults.ok twoOrderStore 1).2.items,
        (it.OrderID : Int) ≠ 1) ∧
      ∀ u : Int,
        PostgresStorage.GetOrder none none
            (PostgresStorage.DeleteOrder DeleteOrderFaults.ok twoOrderStore 1).2 u
            = (none, some (GoError.wrap "error getting order: " ErrNoRows)) ↔
          ∀ o ∈ (PostgresStorage.DeleteOrder DeleteOrderFaults.ok twoOrderStore 1).2.orders,
            (o.UserID : Int) ≠ u) :=
  ⟨(deleteOrder_removes_order_and_items DeleteOrderFaults.ok twoOrderStore 1 1).1 rfl,
    (deleteOrder_removes_order_and_items DeleteOrderFaults.ok twoOrderStore 1 1).2 rfl⟩

/-! ## Revoking a session -/

theorem gormRevoke_none (foundRows : Bool) (rows : List Session) (id : String) :
    gormRevoke foundRows none rows id =
      (rows.map (fun x => if x.ID == id then { x with IsRevoked := true } else x),
        ⟨none, (rows.filter (fun x => x.ID == id && (foundRows || !x.IsRevoked))).length⟩) := rfl

theorem gorm_revoke_nil_affected (foundRows : Bool) (fault : Option GoError) (s : Store)
    (id : String) (h : (GORMStorage.RevokeSession foundRows fault s id).1 = none) :
    (gormRevoke foundRows fault s.sessions id).2.Error = none ∧
      1 ≤ (gormRevoke foundRows fault s.sessions id).2.RowsAffected ∧
      ∃ x ∈ s.sessions, x.ID = id ∧ (foundRows = true ∨ x.IsRevoked = false) := by
  unfold GORMStorage.RevokeSession at h
  cases hf : fault with
  | some e => simp [hf, gormRevoke] at h
  | none =>
    subst hf
    simp only [gormRevoke_none] at h ⊢
    by_cases h0 :
        (s.sessions.filter (fun x => x.ID == id && (foundRows || !x.IsRevoked))).length = 0
    · simp [h0] at h
    · refine ⟨trivial, Nat.one_le_iff_ne_zero.mpr h0, ?_⟩
      have hne : s.sessions.filter (fun x => x.ID == id && (foundRows || !x.IsRevoked)) ≠ [] :=
        fun hnil => h0 (by rw [hnil]; rfl)
      obtain ⟨x, hx⟩ := List.exists_mem_of_ne_nil _ hne
      obtain ⟨hmem, hp⟩ := List.mem_filter.mp hx
      refine ⟨x, hmem, ?_⟩
      simpa using hp

/-- C8. In the declarative-mapping backend `RevokeSession(id)` returns
`ErrSessionNotFound` when the update succeeds and affects zero rows, which
is the case for every id that matches no session; it returns nil only when
the update affected at least one row, a stored session with that id; and
when the update itself fails it returns the failure wrapped, which is not
`ErrSessionNotFound` and has it in its cause chain only if the failure
has. -/
theorem gorm_revokeSession_results (foundRows : Bool) (fault : Option GoError) (s : Store)
    (id : String) :
    ((gormRevoke foundRows fault s.sessions id).2.Error = none →
      (gormRevoke foundRows fault s.sessions id).2.RowsAffected = 0 →
        (GORMStorage.RevokeSession foundRows fault s id).1 = some ErrSessionNotFound) ∧
    (fault = none → (∀ x ∈ s.sessions, x.ID ≠ id) →
      GORMStorage.RevokeSession foundRows fault s id = (some ErrSessionNotFound, s)) ∧
    ((GORMStorage.RevokeSession foundRows fault s id).1 = none →
      (gormRevoke foundRows fault s.sessions id).2.Error = none ∧
      1 ≤ (gormRevoke foundRows fault s.sessions id).2.RowsAffected ∧
      ∃ x ∈ s.sessions, x.ID = id ∧ (foundRows = true ∨ x.IsRevoked = false)) ∧
    (∀ err : GoError, (gormRevoke foundRows fault s.sessions id).2.Error = some err →
      GORMStorage.RevokeSession foundRows fault s id
          = (some (GoError.wrap "error revoking session: " err), s) ∧
        GoError.wrap "error revoking session: " err ≠ ErrSessionNotFound ∧
        errorsIs (GoError.wrap "error revoking session: " err) ErrSessionNotFound
          = errorsIs err ErrSessionNotFound) := by
  refine ⟨?_, ?_, ?_, ?_⟩
  · intro he h0
    unfold GORMStorage.RevokeSession
    simp only [he, h0, if_true]
  · intro hf hall
    subst hf
    have h4 : ∀ x ∈ s.sessions, (x.ID == id) = false := fun x h => by simpa using hall x h
    have h5 : ∀ x ∈ s.sessions, (x.ID == id && (foundRows || !x.IsRevoked)) = false :=
      fun x h => by simp [h4 x h]
    have hm := map_ite_no_row s.sessions (fun x => x.ID == id)
      (fun x => { x with IsRevoked := true }) h4
    simp only [GORMStorage.RevokeSession, gormRevoke_none, hm, filter_eq_nil_of_none _ _ h5,
      List.length_nil, if_true]
  · exact gorm_revoke_nil_affected foundRows fault s id
  · intro err he
    refine ⟨?_, by simp [ErrSessionNotFound], by simp [errorsIs, ErrSessionNotFound]⟩
    unfold GORMStorage.RevokeSession
    simp only [he]

/-- C8 at an id that matches no session, on the empty store. -/
theorem gorm_revokeSession_results_witness :
    GORMStorage.RevokeSession false none Store.empty "s1" = (some ErrSessionNotFound, Store.empty) :=
  (gorm_revokeSession_results false none Store.empty "s1").2.1 rfl (by simp [Store.empty])

/-! ## Revocation is kept -/

theorem revokedIn_of_sessions_eq (id : String) (s t : Store) (h : t.sessions = s.sessions)
    (hr : RevokedIn id s) : RevokedIn id t := by
  unfold RevokedIn at *
  rw [h]
  exact hr

theorem revokedIn_append (id : String) (rows : List Session) (x : Session)
    (hx : x.ID ∉ rows.map Session.ID)
    (hr : (∃ y ∈ rows, y.ID = id) ∧ ∀ y ∈ rows, y.ID = id → y.IsRevoked = true) :
    (∃ y ∈ rows ++ [x], y.ID = id) ∧ ∀ y ∈ rows ++ [x], y.ID = id → y.IsRevoked = true := by
  obtain ⟨⟨y, hy, hyid⟩, hall⟩ := hr
  refine ⟨⟨y, List.mem_append_left _ hy, hyid⟩, ?_⟩
  intro z hz hzid
  rcases List.mem_append.mp hz with hz1 | hz1
  · exact hall z hz1 hzid
  · have hzx : z = x := by simpa using hz1
    subst hzx
    exfalso
    apply hx
    rw [hzid, ← hyid]
    exact List.mem_map_of_mem _ hy

theorem revokedIn_revoke (id id1 : String) (rows : List Session)
    (hr : (∃ y ∈ rows, y.ID = id) ∧ ∀ y ∈ rows, y.ID = id → y.IsRevoked = true) :
    (∃ y ∈ rows.map (fun x => if x.ID == id1 then { x with IsRevoked := true } else x),
        y.ID = id) ∧
      ∀ y ∈ rows.map (fun x => if x.ID == id1 then { x with IsRevoked := true } else x),
        y.ID = id → y.IsRevoked = true := by
  obtain ⟨⟨y, hy, hyid⟩, hall⟩ := hr
  constructor
  · refine ⟨_, List.mem_map_of_mem _ hy, ?_⟩
    by_cases h : (y.ID == id1) = true
    · simp only [h, if_true]; exact hyid
    · simp only [h]; exact hyid
  · intro z hz hzid
    obtain ⟨w, hw, hwz⟩ := List.mem_map.mp hz
    by_cases h : (w.ID == id1) = true
    · simp only [h, if_true] at hwz
      rw [← hwz]
    · simp only [h] at hwz
      subst hwz
      exact hall _ hw hzid

theorem revokedIn_delete (id id1 : String) (rows : List Session) (hne : id1 ≠ id)
    (hr : (∃ y ∈ rows, y.ID = id) ∧ ∀ y ∈ rows, y.ID = id → y.IsRevoked = true) :
    (∃ y ∈ rows.filter (fun x => !(x.ID == id1)), y.ID = id) ∧
      ∀ y ∈ rows.filter (fun x => !(x.ID == id1)), y.ID = id → y.IsRevoked = true := by
  obtain ⟨⟨y, hy, hyid⟩, hall⟩ := hr
  constructor
  · refine ⟨y, List.mem_filter.mpr ⟨hy, ?_⟩, hyid⟩
    simp only [Bool.not_eq_eq_eq_not, Bool.not_true, beq_eq_false_iff_ne, ne_eq, hyid]
    exact fun h => hne h.symm
  · intro z hz hzid
    exact hall z (List.mem_filter.mp hz).1 hzid

theorem gorm_createOrder_sessions (f : GormOrderFaults) (s : Store) (o : Order) :
    (GORMStorage.CreateOrder f s o).2.sessions = s.sessions := by
  by_cases h : (GORMStorage.CreateOrder f s o).1.2 = none
  · rw [(gorm_createOrder_ok f s o h).2.2]
  · rw [(gorm_createOrder_error_atomic f s o h).2]

theorem pq_createOrder_sessions (f : PqOrderFaults) (s : Store) (o : Order) :
    (PostgresStorage.CreateOrder f s o).2.sessions = s.sessions := by
  by_cases h : (PostgresStorage.CreateOrder f s o).1.2 = none
  · exact (pq_createOrder_ok f s o h).2.2.2.2.2
  · rw [(pq_createOrder_error_atomic f s o h).2]

theorem gorm_deleteOrder_sessions (f : DeleteOrderFaults) (s : Store) (id : Nat) :
    (GORMStorage.DeleteOrder f s id).2.sessions = s.sessions := by
  unfold GORMStorage.DeleteOrder gormTransaction gormDeleteOrderTx gormDelete
  cases hb : f.tx.beginErr <;> cases hi : f.itemsErr <;> cases ho : f.orderErr <;>
    cases hc : f.tx.commitErr <;> simp_all

theorem pq_deleteOrder_sessions (f : DeleteOrderFaults) (s : Store) (id : Int) :
    (PostgresStorage.DeleteOrder f s id).2.sessions = s.sessions := by
  unfold PostgresStorage.DeleteOrder execTx deleteOrderTx sqlDelete
  cases hb : f.tx.beginErr <;> cases hi : f.itemsErr <;> cases ho : f.orderErr <;>
    cases hc : f.tx.commitErr <;> cases hr : f.tx.rollbackErr <;> simp_all

/-- A call of the declarative-mapping backend that does not delete the
session `id` keeps it stored and revoked. -/
theorem gormOp_keeps_revoked (id : String) (s : Store) (op : GormOp)
    (hop : op.deletesSession id = false) (hr : RevokedIn id s) : RevokedIn id (op.apply s) := by
  cases op with
  | CreateProduct fault p =>
    apply revokedIn_of_sessions_eq id s _ _ hr
    simp only [GormOp.apply, GORMStorage.CreateProduct]
    repeat' split
    all_goals rfl
  | GetProduct fault k => exact hr
  | ListProducts fault => exact hr
  | UpdateProduct fault p =>
    apply revokedIn_of_sessions_eq id s _ _ hr
    simp only [GormOp.apply, GORMStorage.UpdateProduct]
    repeat' split
    all_goals rfl
  | DeleteProduct fault k =>
    apply revokedIn_of_sessions_eq id s _ _ hr
    simp only [GormOp.apply, GORMStorage.DeleteProduct]
    repeat' split
    all_goals rfl
  | CreateOrder f o => exact revokedIn_of_sessions_eq id s _ (gorm_createOrder_sessions f s o) hr
  | GetOrder fault k => exact hr
  | ListOrders fault => exact hr
  | DeleteOrder f k => exact revokedIn_of_sessions_eq id s _ (gorm_deleteOrder_sessions f s k) hr
  | CreateUser fault u =>
    apply revokedIn_of_sessions_eq id s _ _ hr
    simp only [GormOp.apply, GORMStorage.CreateUser]
    repeat' split
    all_goals rfl
  | GetUser fault k => exact hr
  | ListUsers fault => exact hr
  | UpdateUser fault u =>
    apply revokedIn_of_sessions_eq id s _ _ hr
    simp only [GormOp.apply, GORMStorage.UpdateUser]
    repeat' split
    all_goals rfl
  | DeleteUser fault k =>
    apply revokedIn_of_sessions_eq id s _ _ hr
    simp only [GormOp.apply, GORMStorage.DeleteUser]
    repeat' split
    all_goals rfl
  | CreateSession fault x =>
    simp only [GormOp.apply, GORMStorage.CreateSession]
    cases fault with
    | some e => exact hr
    | none =>
      by_cases hx : x.ID ∈ s.sessions.map Session.ID
      · simp only [hx, if_true]; exact hr
      · simp only [hx, if_false]; exact revokedIn_append id s.sessions x hx hr
  | GetSession fault k => exact hr
  | RevokeSession foundRows fault k =>
    simp only [GormOp.apply, GORMStorage.RevokeSession]
    cases fault with
    | some e => exact hr
    | none =>
      simp only [gormRevoke_none]
      split <;> exact revokedIn_revoke id k s.sessions hr
  | DeleteSession fault k =>
    have hne : k ≠ id := by simpa [GormOp.deletesSession] using hop
    simp only [GormOp.apply, GORMStorage.DeleteSession]
    cases fault with
    | some e => exact hr
    | none =>
      simp only [gormDelete_none]
      split <;> exact revokedIn_delete id k s.sessions hne hr

/-- A call of the raw-query backend that does not delete the session `id`
keeps it stored and revoked. -/
theorem pqOp_keeps_revoked (id : String) (s : Store) (op : PqOp)
    (hop : op.deletesSession id = false) (hr : RevokedIn id s) : RevokedIn id (op.apply s) := by
  cases op with
  | CreateProduct prepareErr execErr p =>
    apply revokedIn_of_sessions_eq id s _ _ hr
    simp only [PqOp.apply, PostgresStorage.CreateProduct]
    repeat' split
    all_goals rfl
  | GetProduct fault k => exact hr
  | ListProducts fault => exact hr
  | UpdateProduct fault p =>
    apply revokedIn_of_sessions_eq id s _ _ hr
    simp only [PqOp.apply, PostgresStorage.UpdateProduct]
    repeat' split
    all_goals rfl
  | DeleteProduct fault k =>
    apply revokedIn_of_sessions_eq id s _ _ hr
    simp only [PqOp.apply, PostgresStorage.DeleteProduct]
    repeat' split
    all_goals rfl
  | CreateOrder f o => exact revokedIn_of_sessions_eq id s _ (pq_createOrder_sessions f s o) hr
  | GetOrder orderErr itemsErr k => exact hr
  | ListOrders ordersErr itemsErr => exact hr
  | DeleteOrder f k => exact revokedIn_of_sessions_eq id s _ (pq_deleteOrder_sessions f s k) hr
  | CreateUser prepareErr execErr u =>
    apply revokedIn_of_sessions_eq id s _ _ hr
    simp only [PqOp.apply, PostgresStorage.CreateUser]
    repeat' split
    all_goals rfl
  | GetUser fault k => exact hr
  | ListUsers fault => exact hr
  | UpdateUser fault u =>
    apply revokedIn_of_sessions_eq id s _ _ hr
    simp only [PqOp.apply, PostgresStorage.UpdateUser]
    repeat' split
    all_goals rfl
  | DeleteUser fault k =>
    apply revokedIn_of_sessions_eq id s _ _ hr
    simp only [PqOp.apply, PostgresStorage.DeleteUser]
    repeat' split
    all_goals rfl
  | CreateSession fault x =>
    simp only [PqOp.apply, PostgresStorage.CreateSession]
    cases fault with
    | some e => exact hr
    | none =>
      by_cases hx : x.ID ∈ s.sessions.map Session.ID
      · simp only [hx, if_true]; exact hr
      · simp only [hx, if_false]; exact revokedIn_append id s.sessions x hx hr
  | GetSession fault k => exact hr
  | RevokeSession fault k =>
    simp only [PqOp.apply, PostgresStorage.RevokeSession]
    cases fault with
    | some e => exact hr
    | none => exact revokedIn_revoke id k s.sessions hr
  | DeleteSession fault k =>
    have hne : k ≠ id := by simpa [PqOp.deletesSession] using hop
    simp only [PqOp.apply, PostgresStorage.DeleteSession]
    cases fault with
    | some e => exact hr
    | none => exact revokedIn_delete id k s.sessions hne hr

theorem gormOps_keep_revoked (id : String) (ops : List GormOp) :
    ∀ s : Store, (∀ op ∈ ops, op.deletesSession id = false) → RevokedIn id s →
      RevokedIn id (ops.foldl GormOp.apply s) := by
  induction ops with
  | nil => intro s _ hr; exact hr
  | cons op rest ih =>
    intro s hops hr
    exact ih _ (fun op1 h1 => hops op1 (List.mem_cons_of_mem _ h1))
      (gormOp_keeps_revoked id s op (hops op (List.mem_cons_self _ _)) hr)

theorem pqOps_keep_revoked (id : String) (ops : List PqOp) :
    ∀ s : Store, (∀ op ∈ ops, op.deletesSession id = false) → RevokedIn id s →
      RevokedIn id (ops.foldl PqOp.apply s) := by
  induction ops with
  | nil => intro s _ hr; exact hr
  | cons op rest ih =>
    intro s hops hr
    exact ih _ (fun op1 h1 => hops op1 (List.mem_cons_of_mem _ h1))
      (pqOp_keeps_revoked id s op (hops op (List.mem_cons_self _ _)) hr)

theorem find_of_revokedIn (id : String) (s : Store) (hr : RevokedIn id s) :
    ∃ x, s.sessions.find? (fun x => x.ID == id) = some x ∧ x.ID = id ∧ x.IsRevoked = true := by
  obtain ⟨⟨y, hy, hyid⟩, hall⟩ := hr
  cases hf : s.sessions.find? (fun x => x.ID == id) with
  | none =>
    have := List.find?_eq_none.mp hf y hy
    simp [hyid] at this
  | some x =>
    have hp := List.find?_some hf
    have hm := List.mem_of_find?_eq_some hf
    have hxid : x.ID = id := by simpa using hp
    exact ⟨x, rfl, hxid, hall x hm hxid⟩

theorem gorm_revoke_success_revokedIn (foundRows : Bool) (fault : Option GoError) (s : Store)
    (id : String) (h : (GORMStorage.RevokeSession foundRows fault s id).1 = none) :
    RevokedIn id (GORMStorage.RevokeSession foundRows fault s id).2 := by
  obtain ⟨he, _, x, hx, hxid, _⟩ := gorm_revoke_nil_affected foundRows fault s id h
  unfold GORMStorage.RevokeSession at h ⊢
  cases fault with
  | some e => simp [gormRevoke] at h
  | none =>
    simp only [gormRevoke_none] at h ⊢
    have key : RevokedIn id
        { s with sessions :=
            s.sessions.map (fun x => if x.ID == id then { x with IsRevoked := true } else x) } := by
      constructor
      · refine ⟨_, List.mem_map_of_mem _ hx, ?_⟩
        simp [hxid]
      · intro z hz hzid
        obtain ⟨w, hw, hwz⟩ := List.mem_map.mp hz
        by_cases hwid : (w.ID == id) = true
        · simp only [hwid, if_true] at hwz
          rw [← hwz]
        · simp only [hwid] at hwz
          subst hwz
          exact absurd (by simpa using hzid) hwid
    split
    · exact key
    · exact key

theorem pq_revoke_success_revokedIn (fault : Option GoError) (s : Store) (id : String)
    (hex : ∃ x ∈ s.sessions, x.ID = id)
    (h : (PostgresStorage.RevokeSession fault s id).1 = none) :
    RevokedIn id (PostgresStorage.RevokeSession fault s id).2 := by
  obtain ⟨x, hx, hxid⟩ := hex
  unfold PostgresStorage.RevokeSession at h ⊢
  cases fault with
  | some e => simp at h
  | none =>
    constructor
    · refine ⟨_, List.mem_map_of_mem _ hx, ?_⟩
      simp [hxid]
    · intro z hz hzid
      obtain ⟨w, hw, hwz⟩ := List.mem_map.mp hz
      by_cases hwid : (w.ID == id) = true
      · simp only [hwid, if_true] at hwz
        rw [← hwz]
      · simp only [hwid] at hwz
        subst hwz
        exact absurd (by simpa using hzid) hwid

/-- C9, the counterexample. On the empty store the raw-query
`RevokeSession("s1")` succeeds, and `GetSession("s1")` right after it, with
no driver failure, returns no session but the driver's no-rows error
wrapped. -/
theorem pq_revoke_unknown_succeeds :
    PostgresStorage.RevokeSession none Store.empty "s1" = (none, Store.empty) ∧
      PostgresStorage.GetSession none
          (([] : List PqOp).foldl PqOp.apply
            (PostgresStorage.RevokeSession none Store.empty "s1").2) "s1"
        = (none, some (GoError.wrap "error getting session: " ErrNoRows)) :=
  ⟨rfl, rfl⟩

/-- C9, amended. Once `RevokeSession(id)` has succeeded (in the raw-query
backend: on a session id that is stored), after every sequence of storage
calls of that backend none of which is `DeleteSession(id)`, whatever the
driver failures during them, `GetSession(id)` without driver failure returns
a session with that id whose revoked flag is set; and no single call other
than `DeleteSession(id)` takes a stored, revoked session out of that
state. -/
theorem revoked_session_stays_revoked (s : Store) (id : String) :
    (∀ (foundRows : Bool) (fault : Option GoError) (ops : List GormOp),
      (GORMStorage.RevokeSession foundRows fault s id).1 = none →
      (∀ op ∈ ops, op.deletesSession id = false) →
      ∃ x : Session,
        GORMStorage.GetSession none
            (ops.foldl GormOp.apply (GORMStorage.RevokeSession foundRows fault s id).2) id
          = (some x, none) ∧ x.ID = id ∧ x.IsRevoked = true) ∧
    (∀ (fault : Option GoError) (ops : List PqOp),
      (∃ x ∈ s.sessions, x.ID = id) →
      (PostgresStorage.RevokeSession fault s id).1 = none →
      (∀ op ∈ ops, op.deletesSession id = false) →
      ∃ x : Session,
        PostgresStorage.GetSession none
            (ops.foldl PqOp.apply (PostgresStorage.RevokeSession fault s id).2) id
          = (some x, none) ∧ x.ID = id ∧ x.IsRevoked = true) ∧
    (∀ op : GormOp, op.deletesSession id = false → RevokedIn id s → RevokedIn id (op.apply s)) ∧
    (∀ op : PqOp, op.deletesSession id = false → RevokedIn id s → RevokedIn id (op.apply s)) := by
  refine ⟨?_, ?_, fun op h hr => gormOp_keeps_revoked id s op h hr,
    fun op h hr => pqOp_keeps_revoked id s op h hr⟩
  · intro foundRows fault ops hrev hops
    have hr := gormOps_keep_revoked id ops _ hops
      (gorm_revoke_success_revokedIn foundRows fault s id hrev)
    obtain ⟨x, hf, hxid, hxr⟩ := find_of_revokedIn id _ hr
    refine ⟨x, ?_, hxid, hxr⟩
    simp only [GORMStorage.GetSession, gormFirst, hf]
  · intro fault ops hex hrev hops
    have hr := pqOps_keep_revoked id ops _ hops
      (pq_revoke_success_revokedIn fault s id hex hrev)
    obtain ⟨x, hf, hxid, hxr⟩ := find_of_revokedIn id _ hr
    refine ⟨x, ?_, hxid, hxr⟩
    simp only [PostgresStorage.GetSession, sqlGet, hf]

/-- C9, amended, on the store holding the session "s1": it is revoked, then
inserted again with the flag clear (which the primary key refuses), a user
is written, another session and an order are deleted. -/
theorem revoked_session_stays_revoked_witness :
    (∃ x : Session,
      GORMStorage.GetSession none
          (sampleGormOps.foldl GormOp.apply
            (GORMStorage.RevokeSession false none oneSessionStore "s1").2) "s1"
        = (some x, none) ∧ x.ID = "s1" ∧ x.IsRevoked = true) ∧
    (∃ x : Session,
      PostgresStorage.GetSession none
          (samplePqOps.foldl PqOp.apply
            (PostgresStorage.RevokeSession none oneSessionStore "s1").2) "s1"
        = (some x, none) ∧ x.ID = "s1" ∧ x.IsRevoked = true) :=
  ⟨(revoked_session_stays_revoked oneSessionStore "s1").1 false none sampleGormOps rfl
      (by decide),
    (revoked_session_stays_revoked oneSessionStore "s1").2.1 none samplePqOps
      ⟨⟨"s1", "a@b.c", "token", false, 100⟩, by simp [oneSessionStore, Store.empty], rfl⟩ rfl
      (by decide)⟩

/-! ## Two users with one email -/

theorem gorm_createUser_success (s : Store) (u : User) (fault : Option GoError)
    (h : (GORMStorage.CreateUser fault s u).1.2 = none) :
    (GORMStorage.CreateUser fault s u).2 =
      { s with users := s.users ++ [{ u with ID := gormKey u.ID (s.users.map User.ID) }] } := by
  unfold GORMStorage.CreateUser at *
  cases fault with
  | some e => simp at h
  | none =>
    by_cases hd : gormKey u.ID (s.users.map User.ID) ∈ s.users.map User.ID ∨
        u.Email ∈ s.users.map User.Email
    · simp only [hd, if_true] at h
      exact absurd h (by simp)
    · simp only [hd, if_false]

/-- C10, the counterexample. Ann is stored, then Bob is created with Ann's
email, nothing failing in the driver. The second call returns the database's
duplicate-entry error wrapped as "error inserting user"; read against the
sentinels of the storage package it has no kind (it is no `AlreadyExists`),
the same as the error of an insert that failed on a lost connection. -/
theorem createUser_duplicate_has_no_kind :
    (GORMStorage.CreateUser none (GORMStorage.CreateUser none Store.empty userAnn).2 userBob).1
        = (none, some (GoError.wrap "error inserting user: " ErrDuplicateEntry)) ∧
      kindOf (GoError.wrap "error inserting user: " ErrDuplicateEntry) ≠ ErrKind.AlreadyExists ∧
      kindOf (GoError.wrap "error inserting user: " ErrDuplicateEntry) = ErrKind.Other ∧
      (GORMStorage.CreateUser (some (GoError.new "connection lost")) Store.empty userAnn).1
        = (none, some (GoError.wrap "error inserting user: " (GoError.new "connection lost"))) ∧
      kindOf (GoError.wrap "error inserting user: " (GoError.new "connection lost"))
        = ErrKind.Other := by
  refine ⟨by decide, by decide, by decide, rfl, by decide⟩

/-- C10, amended. For every two users with the same email, when `CreateUser`
has succeeded for the first, `CreateUser` for the second returns no user and
a non-nil error, and leaves the store, the first user's row in it, as it
was; with no driver failure the error is the database's duplicate-entry
error wrapped as "error inserting user", which keeps its cause and matches
none of the sentinels of the storage package. -/
theorem gorm_createUser_duplicate_email (s : Store) (u1 u2 : User) (f1 f2 : Option GoError)
    (hemail : u1.Email = u2.Email) (h1 : (GORMStorage.CreateUser f1 s u1).1.2 = none) :
    (GORMStorage.CreateUser f2 (GORMStorage.CreateUser f1 s u1).2 u2).1.1 = none ∧
      (GORMStorage.CreateUser f2 (GORMStorage.CreateUser f1 s u1).2 u2).1.2 ≠ none ∧
      (GORMStorage.CreateUser f2 (GORMStorage.CreateUser f1 s u1).2 u2).2
        = (GORMStorage.CreateUser f1 s u1).2 ∧
      { u1 with ID := gormKey u1.ID (s.users.map User.ID) }
        ∈ (GORMStorage.CreateUser f2 (GORMStorage.CreateUser f1 s u1).2 u2).2.users ∧
      (GORMStorage.CreateUser none (GORMStorage.CreateUser f1 s u1).2 u2).1.2
        = some (GoError.wrap "error inserting user: " ErrDuplicateEntry) ∧
      errorsIs (GoError.wrap "error inserting user: " ErrDuplicateEntry) ErrDuplicateEntry = true ∧
      kindOf (GoError.wrap "error inserting user: " ErrDuplicateEntry) = ErrKind.Other := by
  have hs := gorm_createUser_success s u1 f1 h1
  rw [hs]
  have hmem : u2.Email ∈ (s.users ++ [{ u1 with ID := gormKey u1.ID (s.users.map User.ID) }]).map
      User.Email := by
    simp [hemail]
  have hres : GORMStorage.CreateUser none
      { s with users := s.users ++ [{ u1 with ID := gormKey u1.ID (s.users.map User.ID) }] } u2
      = ((none, some (GoError.wrap "error inserting user: " ErrDuplicateEntry)),
          { s with users :=
              s.users ++ [{ u1 with ID := gormKey u1.ID (s.users.map User.ID) }] }) := by
    unfold GORMStorage.CreateUser
    simp only [hmem, or_true, if_true]
  cases f2 with
  | some e =>
    rw [hres]
    refine ⟨rfl, by simp [GORMStorage.CreateUser], rfl, by simp [GORMStorage.CreateUser],
      rfl, by decide, by decide⟩
  | none =>
    rw [hres]
    refine ⟨rfl, by simp, rfl, by simp, rfl, by decide, by decide⟩

/-- C10, amended, at Ann and Bob on the empty store. -/
theorem gorm_createUser_duplicate_email_witness :
    (GORMStorage.CreateUser none (GORMStorage.CreateUser none Store.empty userAnn).2 userBob).1.1
        = none ∧
      (GORMStorage.CreateUser none (GORMStorage.CreateUser none Store.empty userAnn).2 userBob).1.2
        ≠ none ∧
      (GORMStorage.CreateUser none (GORMStorage.CreateUser none Store.empty userAnn).2 userBob).2
        = (GORMStorage.CreateUser none Store.empty userAnn).2 ∧
      { userAnn with ID := gormKey userAnn.ID (Store.empty.users.map User.ID) }
        ∈ (GORMStorage.CreateUser none (GORMStorage.CreateUser none Store.empty userAnn).2
            userBob).2.users ∧
      (GORMStorage.CreateUser none (GORMStorage.CreateUser none Store.empty userAnn).2
          userBob).1.2
        = some (GoError.wrap "error inserting user: " ErrDuplicateEntry) ∧
      errorsIs (GoError.wrap "error inserting user: " ErrDuplicateEntry) ErrDuplicateEntry = true ∧
      kindOf (GoError.wrap "error inserting user: " ErrDuplicateEntry) = ErrKind.Other :=
  gorm_createUser_duplicate_email Store.empty userAnn userBob none none rfl rfl

/-! ## The transaction scope of the raw-query backend -/

/-- When the transaction has begun and the body returns an error, `execTx`
issues a rollback. -/
theorem execTx_rolls_back_on_error {α : Type} (f : TxFaults)
    (fn : Store → α → Option GoError × Store × α) (s : Store) (a : α)
    (hb : f.beginErr = none) (hfn : (fn s a).1 ≠ none) :
    execTxCalls f fn s a = [TxCall.Begin, TxCall.Rollback] := by
  unfold execTxCalls
  rcases h : fn s a with ⟨_ | e, tx, a1⟩
  · simp [h] at hfn
  · simp [hb]

/-- The error `execTx` returns after a failed rollback is built from the
error of the body alone: it is the same whatever error the rollback
reported. -/
theorem execTx_rollback_error_unused {α : Type} (f : TxFaults)
    (fn : Store → α → Option GoError × Store × α) (s : Store) (a : α) (r1 r2 : GoError) :
    execTx { f with rollbackErr := some r1 } fn s a
      = execTx { f with rollbackErr := some r2 } fn s a := by
  unfold execTx
  cases f.beginErr with
  | some e => rfl
  | none => rcases fn s a with ⟨_ | e, tx, a1⟩ <;> rfl

/-- C11 (the rollback's error is not surfaced). The body fails with "insert
failed" and the rollback then fails with "connection lost": `execTx` does
issue the rollback, and returns "error rolling back transaction" wrapping
the error of the body; the error of the rollback is not in the cause chain
of what it returns (storer_pq.go:98-99 wraps `err`, not `rbErr`). -/
theorem execTx_drops_rollback_error :
    execTxCalls rollbackFails failingBody Store.empty () = [TxCall.Begin, TxCall.Rollback] ∧
      (execTx rollbackFails failingBody Store.empty ()).1
        = some (GoError.wrap "error rolling back transaction: " (GoError.new "insert failed")) ∧
      errorsIs (GoError.wrap "error rolling back transaction: " (GoError.new "insert failed"))
        (GoError.new "connection lost") = false ∧
      errorsIs (GoError.wrap "error rolling back transaction: " (GoError.new "insert failed"))
        (GoError.new "insert failed") = true := by
  refine ⟨rfl, rfl, by decide, by decide⟩

/-! ## Listing orders in the raw-query backend -/

theorem listOrderItems_ok (itemsErr : Nat → Option GoError) (s : Store) (os : List Order) :
    ∀ (i : Nat) (res : List Order), listOrderItems itemsErr s i os = Except.ok res →
      res = os.map (fun o => { o with Items := s.items.filter (fun it => it.OrderID == o.ID) }) := by
  induction os with
  | nil =>
    intro i res h
    simp only [listOrderItems, Except.ok.injEq] at h
    simp [← h]
  | cons o rest ih =>
    intro i res h
    cases hi : itemsErr i with
    | some err => simp [listOrderItems, sqlSelect, hi] at h
    | none =>
      simp only [listOrderItems, sqlSelect, hi] at h
      cases hr : listOrderItems itemsErr s (i + 1) rest with
      | error e => simp [hr] at h
      | ok done =>
        simp only [hr, Except.ok.injEq] at h
        rw [← h, ih _ _ hr]
        rfl

theorem listOrderItems_err (itemsErr : Nat → Option GoError) (s : Store) (os : List Order) :
    ∀ (i : Nat), (∃ k, k < os.length ∧ itemsErr (i + k) ≠ none) →
      ∃ e, listOrderItems itemsErr s i os = Except.error e := by
  induction os with
  | nil => intro i ⟨k, hk, _⟩; simp at hk
  | cons o rest ih =>
    intro i ⟨k, hk, hne⟩
    cases hi : itemsErr i with
    | some err =>
      exact ⟨GoError.wrap "error listing order items: " err,
        by simp [listOrderItems, sqlSelect, hi]⟩
    | none =>
      have hrest : ∃ k1, k1 < rest.length ∧ itemsErr (i + 1 + k1) ≠ none := by
        cases k with
        | zero => simp [hi] at hne
        | succ k =>
          refine ⟨k, by simpa using hk, ?_⟩
          rwa [Nat.add_assoc, Nat.add_comm 1 k]
      obtain ⟨e, he⟩ := ih (i + 1) hrest
      exact ⟨e, by simp [listOrderItems, sqlSelect, hi, he]⟩

/-- C12. In the raw-query backend a successful `ListOrders` returns the
order rows of the store, in order, each with `Items` set to exactly the item
rows whose `order_id` is that order's id (so as many items as were inserted
for it); and when the item query of any order fails it returns no list and
a non-nil error. -/
theorem pq_listOrders_orders_with_their_items (ordersErr : Option GoError)
    (itemsErr : Nat → Option GoError) (s : Store) :
    ((PostgresStorage.ListOrders ordersErr itemsErr s).2 = none →
      (PostgresStorage.ListOrders ordersErr itemsErr s).1
        = some (s.orders.map
            (fun o => { o with Items := s.items.filter (fun it => it.OrderID == o.ID) }))) ∧
    ((∃ i, i < s.orders.length ∧ itemsErr i ≠ none) →
      (PostgresStorage.ListOrders ordersErr itemsErr s).1 = none ∧
      (PostgresStorage.ListOrders ordersErr itemsErr s).2 ≠ none) := by
  constructor
  · intro h
    unfold PostgresStorage.ListOrders sqlSelect at *
    cases ho : ordersErr with
    | some e => simp [ho] at h
    | none =>
      simp only [ho, List.filter_true] at h ⊢
      cases hl : listOrderItems itemsErr s 0 s.orders with
      | error e => simp [hl] at h
      | ok res =>
        simp only [hl]
        rw [listOrderItems_ok itemsErr s s.orders 0 res hl]
  · intro ⟨i, hi, hne⟩
    unfold PostgresStorage.ListOrders sqlSelect
    cases ho : ordersErr with
    | some e => simp
    | none =>
      simp only [List.filter_true]
      obtain ⟨e, he⟩ := listOrderItems_err itemsErr s s.orders 0 ⟨i, hi, by simpa using hne⟩
      simp [he]

/-- C12 on the store holding order 1, with one item, and order 4, with
none: the listing when nothing fails, and when the item query of the second
order fails. -/
theorem pq_listOrders_orders_with_their_items_witness :
    (PostgresStorage.ListOrders none (fun _ => none) twoOrderStore).1
        = some (twoOrderStore.orders.map
            (fun o =>
              { o with Items := twoOrderStore.items.filter (fun it => it.OrderID == o.ID) })) ∧
      (PostgresStorage.ListOrders none secondItemFails.itemErr twoOrderStore).1 = none ∧
      (PostgresStorage.ListOrders none secondItemFails.itemErr twoOrderStore).2 ≠ none :=
  ⟨(pq_listOrders_orders_with_their_items none (fun _ => none) twoOrderStore).1 rfl,
    (pq_listOrders_orders_with_their_items none secondItemFails.itemErr twoOrderStore).2
      ⟨1, by decide, by decide⟩⟩

/-! ## Minting claims -/

theorem errorsIs_self (e : GoError) : errorsIs e e = true := by
  cases e <;> simp [errorsIs]

theorem errorsIs_wrap_cause (text : String) (e : GoError) :
    errorsIs (GoError.wrap text e) e = true := by
  simp [errorsIs, errorsIs_self]

/-- C13, the counterexample. With timestamps cut to whole seconds, the clock
read at 10.9 s for `IssuedAt` and at 11.0 s for `ExpiresAt`, and a duration
of 60 s, `NewUserClaims` returns claims issued at 10 s that expire at 71 s:
there is no minting time that gives both the issued-at and, with the
duration added, the expiry. -/
theorem newUserClaims_reads_clock_twice :
    ∃ c : UserClaims,
      NewUserClaims (Except.ok "tok-1") truncateToSecond 10900000000 11000000000 7 "a@b.c" false
          60000000000 = (some c, none) ∧
        c.RegisteredClaims.IssuedAt = some 10000000000 ∧
        c.RegisteredClaims.ExpiresAt = some 71000000000 ∧
        ¬ ∃ t : Int, c.RegisteredClaims.IssuedAt = some (truncateToSecond t) ∧
          c.RegisteredClaims.ExpiresAt = some (truncateToSecond (t + 60000000000)) := by
  refine ⟨_, rfl, by decide, by decide, ?_⟩
  rintro ⟨t, h1, h2⟩
  simp only [truncateToSecond, Option.some.injEq] at h1 h2
  omega

/-- C13, amended. For every id, email, admin flag and duration, when the
identifier is generated `NewUserClaims` returns claims whose subject is the
email, whose user id, email and admin flag are the arguments, whose token id
is the generated identifier, whose issued-at is the first reading of the
clock and whose expiry is the second reading of the clock plus the duration;
when the two readings are one minting time, the expiry is that time plus the
duration and the issued-at is that time. When the identifier cannot be
generated it returns no claims and an error that wraps the cause. -/
theorem newUserClaims_fields (newRandom : Except GoError String) (numericDate : Int → Int)
    (now1 now2 : Int) (id : Nat) (email : String) (isAdmin : Bool) (duration : Int) :
    (∀ tokenId : String, newRandom = Except.ok tokenId →
      ∃ c : UserClaims,
        NewUserClaims newRandom numericDate now1 now2 id email isAdmin duration = (some c, none) ∧
          c.ID = id ∧ c.Email = email ∧ c.IsAdmin = isAdmin ∧
          c.RegisteredClaims.Subject = email ∧ c.RegisteredClaims.ID = tokenId ∧
          c.RegisteredClaims.IssuedAt = some (numericDate now1) ∧
          c.RegisteredClaims.ExpiresAt = some (numericDate (now2 + duration)) ∧
          (now1 = now2 →
            c.RegisteredClaims.ExpiresAt = some (numericDate (now1 + duration)))) ∧
    (∀ cause : GoError, newRandom = Except.error cause →
      NewUserClaims newRandom numericDate now1 now2 id email isAdmin duration
          = (none, some (GoError.wrap "error generating token id: " cause)) ∧
        errorsIs (GoError.wrap "error generating token id: " cause) cause = true) := by
  constructor
  · intro tokenId h
    subst h
    exact ⟨_, rfl, rfl, rfl, rfl, rfl, rfl, rfl, rfl, fun h => by rw [h]⟩
  · intro cause h
    subst h
    exact ⟨rfl, errorsIs_wrap_cause _ cause⟩

/-- C13, amended, at one reading of the clock, 10.9 s, for both timestamps,
and at a failed generation. -/
theorem newUserClaims_fields_witness :
    (∃ c : UserClaims,
      NewUserClaims (Except.ok "tok-1") truncateToSecond 10900000000 10900000000 7 "a@b.c" false
          60000000000 = (some c, none) ∧
        c.ID = 7 ∧ c.Email = "a@b.c" ∧ c.IsAdmin = false ∧
        c.RegisteredClaims.Subject = "a@b.c" ∧ c.RegisteredClaims.ID = "tok-1" ∧
        c.RegisteredClaims.IssuedAt = some (truncateToSecond 10900000000) ∧
        c.RegisteredClaims.ExpiresAt = some (truncateToSecond (10900000000 + 60000000000)) ∧
        ((10900000000 : Int) = 10900000000 →
          c.RegisteredClaims.ExpiresAt
            = some (truncateToSecond (10900000000 + 60000000000)))) ∧
    (NewUserClaims (Except.error (GoError.new "entropy")) truncateToSecond 1 2 7 "a@b.c" false 60
        = (none, some (GoError.wrap "error generating token id: " (GoError.new "entropy"))) ∧
      errorsIs (GoError.wrap "error generating token id: " (GoError.new "entropy"))
        (GoError.new "entropy") = true) :=
  ⟨(newUserClaims_fields (Except.ok "tok-1") truncateToSecond 10900000000 10900000000 7 "a@b.c"
      false 60000000000).1 "tok-1" rfl,
    (newUserClaims_fields (Except.error (GoError.new "entropy")) truncateToSecond 1 2 7 "a@b.c"
      false 60).2 (GoError.new "entropy") rfl⟩

/-! ## Validation errors -/

theorem foldl_append_eq_map {α β : Type} (g : α → β) (l : List α) :
    ∀ acc : List β, l.foldl (fun errors err => errors ++ [g err]) acc = acc ++ l.map g := by
  induction l with
  | nil => intro acc; simp
  | cons a rest ih => intro acc; simp [ih]

/-- On the two results of `v.Struct(s)` the code handles, `ValidateStruct`
returns: the empty list when validation reports no error, and otherwise one
`ValidationError` per field error, in the same order, each with the field
name and the message of `getCustomValidationError`. -/
theorem validateStruct_returns (errs : List FieldError) :
    ValidateStruct StructResult.valid = Outcome.returns [] ∧
      ValidateStruct (StructResult.fieldErrors errs)
        = Outcome.returns (errs.map getCustomValidationError) ∧
      (errs.map getCustomValidationError).length = errs.length ∧
      (∀ e ∈ errs, (getCustomValidationError e).Field = e.Field) := by
  refine ⟨rfl, ?_, by simp, ?_⟩
  · simp [ValidateStruct, foldl_append_eq_map]
  · intro e _
    unfold getCustomValidationError
    simp only
    repeat' split
    all_goals rfl

/-- The messages for the tag "min": the password one on the field
"Password", the minimum one on any other field. -/
theorem getCustomValidationError_min (field param : String) :
    getCustomValidationError ⟨field, "min", param⟩
      = if field = "Password" then
          ⟨field, "Password must be at least " ++ param ++ " characters long"⟩
        else ⟨field, "Minimum value is " ++ param⟩ := by
  simp [getCustomValidationError]

/-- C14 (one result of the validator makes it panic). When `v.Struct(s)`
returns a `*validator.InvalidValidationError`, as it does for a value `s`
that is not a struct, `ValidateStruct` does not return: the type assertion
at exception.go:47 panics. On field errors it returns their messages. -/
theorem validateStruct_panics_on_invalid_value :
    ValidateStruct StructResult.invalidValue
        = Outcome.panics
            "interface conversion: error is *validator.InvalidValidationError, not validator.ValidationErrors" ∧
      (∀ out : List ValidationError,
        ValidateStruct StructResult.invalidValue ≠ Outcome.returns out) ∧
      ValidateStruct (StructResult.fieldErrors [⟨"Password", "min", "8"⟩, ⟨"Rating", "min", "0"⟩])
        = Outcome.returns
            [⟨"Password", "Password must be at least 8 characters long"⟩,
             ⟨"Rating", "Minimum value is 0"⟩] := by
  refine ⟨rfl, fun out h => by simp [ValidateStruct] at h, by decide⟩

end Ecom
